import Mathlib

/-!
# Verification of the kalmann trading engine against its specification

This file shallowly embeds the decision and position-management engine of
the kalmann repository (TypeScript) into Lean 4 and proves or refutes the
frozen claims about it.

Modelling conventions:

* TypeScript `number` values are modelled as `ℚ`.  All arithmetic in the
  embedded code paths is exact on the inputs considered by the theorems;
  divisions occurring in the code only ever divide by nonzero denominators
  on those inputs, except where a possible division by zero (yielding JS
  `NaN`) is modelled explicitly with `Option ℚ` (`none` = `NaN`).
* `Math.sqrt` is kept abstract as a parameter `sqrtQ : ℚ → ℚ`; no theorem
  below depends on its values other than through explicitly stated facts.
* String-typed unions of the source (`'Buy' | 'Sell'`, `'BUY' | 'SELL' |
  'HOLD'`, strategy names, actions) are modelled as `String`, compared
  exactly as the source compares them.
* `async` network calls are modelled by passing the fetched value as an
  argument; a call that can fail is given the corresponding `Except` /
  `Option` input.
* Timestamps (`Date.now()`, `openTime`) are `ℤ` milliseconds.
-/

namespace Kalmann

/-- `Kline` from `src/types/index.ts`: one OHLCV candle. -/
structure Kline where
  openTime : ℤ
  closeTime : ℤ
  open_ : ℚ
  high : ℚ
  low : ℚ
  close : ℚ
  volume : ℚ
  deriving DecidableEq, Repr

/-! ## DataManager (`src/data/data-manager.ts`) -/

namespace DataManager

/-- `Array.prototype.slice(-n)`: the last `n` elements (the whole list when
shorter). -/
def sliceLast (n : ℕ) (l : List Kline) : List Kline :=
  l.drop (l.length - n)

/-- The `filter` callback of `updateLatestData`: an element is kept iff it is
at index 0 or its `openTime` differs from the `openTime` of the element at the
previous index of the array being filtered (JS `filter` passes the original
array, not the partially filtered one). -/
def filterAdjacentDups (l : List Kline) : List Kline :=
  match l with
  | [] => []
  | a :: rest =>
      a :: (rest.zip l).filterMap
        (fun p => if p.1.openTime ≠ p.2.openTime then some p.1 else none)

/-- `DataManager.updateLatestData`, the pure buffer-update step: append the
freshly fetched candles to the current buffer, keep only the last 200, then
apply the adjacent-duplicate filter.  (The fetch of `latestKlines` and the
`Map` store are the surrounding I/O, modelled as arguments/result.) -/
def updateLatestData (currentBuffer latestKlines : List Kline) : List Kline :=
  filterAdjacentDups (sliceLast 200 (currentBuffer ++ latestKlines))

end DataManager

/-! ## TechnicalAnalysis (`src/analysis/technical-analysis.ts`) -/

structure MACDValue where
  macd : ℚ
  signal : ℚ
  histogram : ℚ
  deriving DecidableEq, Repr

structure BollingerBands where
  upper : ℚ
  middle : ℚ
  lower : ℚ
  deriving DecidableEq, Repr

structure EMASet where
  ema9 : ℚ
  ema21 : ℚ
  ema50 : ℚ
  deriving DecidableEq, Repr

structure VolumeInfo where
  avg : ℚ
  current : ℚ
  ratio : ℚ
  deriving DecidableEq, Repr

/-- `TechnicalIndicators` from `src/types/index.ts`. -/
structure TechnicalIndicators where
  rsi : ℚ
  macd : MACDValue
  bollinger : BollingerBands
  ema : EMASet
  volume : VolumeInfo
  deriving DecidableEq, Repr

namespace TechnicalAnalysis

/-- `TechnicalAnalysis.calculateEMA`: seeded at the first sample, then the
standard recursion `ema = price·k + ema·(1−k)` with `k = 2/(period+1)`. -/
def calculateEMA (prices : List ℚ) (period : ℕ) : ℚ :=
  match prices with
  | [] => 0
  | [p] => p
  | p :: rest =>
      let multiplier : ℚ := 2 / (period + 1)
      rest.foldl (fun ema price => price * multiplier + ema * (1 - multiplier)) p

/-- `TechnicalAnalysis.calculateMACD`: `macd = EMA(12) − EMA(26)`; the signal
line is approximated as `0.9 × macd` (documented simplification); the
histogram is `macd − signal`. -/
def calculateMACD (prices : List ℚ) : MACDValue :=
  let ema12 := calculateEMA prices 12
  let ema26 := calculateEMA prices 26
  let macd := ema12 - ema26
  let signal := macd * 0.9
  let histogram := macd - signal
  { macd := macd, signal := signal, histogram := histogram }

end TechnicalAnalysis

/-! ## KalmanFilter (`src/analysis/kalman-filter.ts`)

The filter's instance state has `P = 1` throughout (`this.state.P` is set in
the constructor and never reassigned; `runKalmanFilter` uses a local copy),
and `Q`, `R` are recomputed by `adaptFilterParameters` on every `predict`
call, so `predict` is a pure function of the candle list.  `confidence` is
`Option ℚ` because the source can produce `NaN` there (0/0); `none` = `NaN`. -/

/-- `KalmanPrediction` from `src/types/index.ts`.  `confidence : Option ℚ`
models a possibly-`NaN` JS number (`none` = `NaN`). -/
structure KalmanPrediction where
  predictedPrice : ℚ
  confidence : Option ℚ
  trend : String
  timeframe : String
  accuracy : ℚ
  deriving DecidableEq, Repr

namespace KalmanFilter

/-- One predict/correct step of `runKalmanFilter`; the state is `(x, P)`. -/
def kalmanStep (Q R : ℚ) (s : ℚ × ℚ) (z : ℚ) : ℚ × ℚ :=
  let x_pred := s.1
  let P_pred := s.2 + Q
  let K := P_pred / (P_pred + R)
  (x_pred + K * (z - x_pred), (1 - K) * P_pred)

/-- The loop body of `runKalmanFilter`: one filtered value pushed per input
sample. -/
def runKalmanAux (Q R : ℚ) : ℚ × ℚ → List ℚ → List ℚ
  | _, [] => []
  | s, z :: rest =>
      let s' := kalmanStep Q R s z
      s'.1 :: runKalmanAux Q R s' rest

/-- `KalmanFilter.runKalmanFilter`: initial state `x = prices[0]`,
`P = this.state.P = 1` (constructor value; only called on nonempty input, so
`headD 0` agrees with `prices[0]`). -/
def runKalmanFilter (Q R : ℚ) (prices : List ℚ) : List ℚ :=
  runKalmanAux Q R (prices.headD 0, 1) prices

/-- `KalmanFilter.calculateLinearTrend`: ordinary-least-squares slope over
`x = 0, 1, …, n−1`. -/
def calculateLinearTrend (data : List ℚ) : ℚ :=
  if data.length < 2 then 0
  else
    let n : ℚ := data.length
    let xi := (List.range data.length).map (fun i => (i : ℚ))
    let sumX := xi.sum
    let sumY := data.sum
    let sumXY := ((xi.zip data).map (fun p => p.1 * p.2)).sum
    let sumXX := (xi.map (fun x => x * x)).sum
    (n * sumXY - sumX * sumY) / (n * sumXX - sumX * sumX)

/-- `KalmanFilter.extrapolateFuture`: OLS trend of the last 5 filtered values
extended `lookAhead` steps from the last one.  (For fewer than 2 predictions
the source returns `predictions[len−1] || 0`, which is `0` exactly when the
list is empty or its last value is `0`.) -/
def extrapolateFuture (predictions : List ℚ) (lookAhead : ℚ) : ℚ :=
  if predictions.length < 2 then predictions.getLastD 0
  else
    let recent := predictions.drop (predictions.length - 5)
    let trend := calculateLinearTrend recent
    predictions.getLastD 0 + trend * lookAhead

/-- Simple returns `(pᵢ − pᵢ₋₁)/pᵢ₋₁` of a price series, as built by the
loops of `calculateVolatility` and similar functions. -/
def simpleReturns (prices : List ℚ) : List ℚ :=
  (prices.zip (prices.drop 1)).map (fun p => (p.2 - p.1) / p.1)

/-- `KalmanFilter.calculateVolatility`: standard deviation of the simple
returns (`sqrtQ` stands for `Math.sqrt`). -/
def calculateVolatility (sqrtQ : ℚ → ℚ) (prices : List ℚ) : ℚ :=
  if prices.length < 2 then 0
  else
    let returns := simpleReturns prices
    let mean := returns.sum / (returns.length : ℚ)
    let variance :=
      (returns.map (fun r => (r - mean) ^ 2)).sum / (returns.length : ℚ)
    sqrtQ variance

/-- `KalmanFilter.calculateVolumeTrend`: relative difference between the mean
of the last 5 volumes (sum divided by the literal 5) and the overall mean. -/
def calculateVolumeTrend (volumes : List ℚ) : ℚ :=
  if volumes.length < 2 then 0
  else
    let avgVolume := volumes.sum / volumes.length
    let recentVolume := (volumes.drop (volumes.length - 5)).sum / 5
    (recentVolume - avgVolume) / avgVolume

/-- `KalmanFilter.adaptFilterParameters`, returning the adapted `(Q, R)`. -/
def adaptFilterParameters (volatility volumeTrend : ℚ) : ℚ × ℚ :=
  let Q := max 0.001 (min 0.1 (volatility * 0.1))
  let volumeFactor := max 0.5 (min 2.0 (1 + volumeTrend))
  let R := max 0.01 (min 1.0 (0.1 * volumeFactor))
  (Q, R)

/-- JS `Math.max(...list)` over a nonempty list (only called so). -/
def maxOf (l : List ℚ) : ℚ :=
  match l with
  | [] => 0
  | h :: t => t.foldl max h

/-- JS `Math.min(...list)` over a nonempty list (only called so). -/
def minOf (l : List ℚ) : ℚ :=
  match l with
  | [] => 0
  | h :: t => t.foldl min h

/-- `KalmanFilter.calculateConfidence`.  Result is `Option ℚ`, `none` = `NaN`:
when `maxError = 0` the source computes `√mse / 0`, which is `NaN` when
`√mse = 0` (so `1 − NaN` survives `Math.min`/`Math.max` as `NaN`) and `+∞`
when `√mse > 0` (so `1 − ∞ = −∞` is clamped to `0`); `Math.sqrt` of the
nonnegative `mse` is never negative. -/
def calculateConfidence (sqrtQ : ℚ → ℚ) (predictions actualPrices : List ℚ) :
    Option ℚ :=
  if predictions.length ≠ actualPrices.length then some 0
  else
    let mse := ((predictions.zip actualPrices).map
      (fun p => (p.1 - p.2) ^ 2)).sum / (predictions.length : ℚ)
    let maxError := maxOf actualPrices - minOf actualPrices
    if maxError = 0 then
      if sqrtQ mse = 0 then none else some 0
    else
      some (max 0 (min 1 (1 - sqrtQ mse / maxError)))

/-- `KalmanFilter.determineTrend`: sign of the OLS slope of the last 3
filtered values, with dead zone `10⁻³`. -/
def determineTrend (predictions : List ℚ) : String :=
  if predictions.length < 3 then "neutral"
  else
    let recent := predictions.drop (predictions.length - 3)
    let trend := calculateLinearTrend recent
    if trend > 0.001 then "bullish"
    else if trend < -0.001 then "bearish"
    else "neutral"

/-- Direction of one adjacent pair, as in `calculateAccuracy`:
`1` when strictly increasing, else `−1`. -/
def pairDirection (prev cur : ℚ) : ℤ :=
  if cur > prev then 1 else -1

/-- `KalmanFilter.calculateAccuracy`: fraction of adjacent pairs whose
filtered direction matches the input direction (called with lists of equal
length). -/
def calculateAccuracy (predictions actualPrices : List ℚ) : ℚ :=
  if predictions.length < 2 then 0
  else
    let predDirs := (predictions.zip (predictions.drop 1)).map
      (fun p => pairDirection p.1 p.2)
    let actualDirs := (actualPrices.zip (actualPrices.drop 1)).map
      (fun p => pairDirection p.1 p.2)
    let correctDirection := ((predDirs.zip actualDirs).filter
      (fun p => p.1 = p.2)).length
    let totalComparisons := predictions.length - 1
    (correctDirection : ℚ) / (totalComparisons : ℚ)

/-- The fallback prediction of `KalmanFilter.predict`'s `catch` block. -/
def fallbackPrediction (lastPrice : ℚ) : KalmanPrediction :=
  { predictedPrice := lastPrice
    confidence := some 0.1
    trend := "neutral"
    timeframe := "5m"
    accuracy := 0.1 }

/-- `KalmanFilter.predict`.  The only statement of the `try` block that can
throw is the explicit `length < 10` guard (the remaining statements are JS
float arithmetic, which never throws); the `catch` block reads
`klines[klines.length − 1].close`, which itself throws a `TypeError` on an
empty list — that error escapes `predict`, modelled as `none`. -/
def predict (sqrtQ : ℚ → ℚ) (klines : List Kline) (lookAhead : ℚ := 5) :
    Option KalmanPrediction :=
  if klines.length < 10 then
    match klines.getLast? with
    | none => none
    | some k => some (fallbackPrediction k.close)
  else
    let prices := klines.map (fun k => k.close)
    let volumes := klines.map (fun k => k.volume)
    let volatility := calculateVolatility sqrtQ prices
    let volumeTrend := calculateVolumeTrend volumes
    let QR := adaptFilterParameters volatility volumeTrend
    let predictions := runKalmanFilter QR.1 QR.2 prices
    let futurePrediction := extrapolateFuture predictions lookAhead
    let confidence := calculateConfidence sqrtQ predictions prices
    let trend := determineTrend predictions
    let accuracy := calculateAccuracy predictions prices
    some { predictedPrice := futurePrediction
           confidence := confidence
           trend := trend
           timeframe := "5m"
           accuracy := accuracy }

end KalmanFilter

/-! ## OllamaClient (`src/ai/ollama-client.ts`)

`validateAndCleanAnalysis` receives the object produced by `JSON.parse` (or
by the fallback parser).  A parsed field is classified by the two features
the code observes: its JS truthiness (for `v || default`) and its numeric
conversion (for `Math.min`/`Math.max`). -/

/-- A field of the parsed reasoning-engine reply, as observed by
`v || default` followed by numeric clipping:
* `jnum q` — a JSON number `q` (truthy iff `q ≠ 0`, converts to `q`);
* `jstrNum q` — a nonempty string whose JS numeric conversion is the number
  `q` (truthy; e.g. `"0.7"`, and also stands for `true` ↦ 1);
* `jstrNaN` — a truthy value whose numeric conversion is `NaN` (e.g. the
  string `"high"`, an object, an array);
* `jabsent` — a falsy value: the field is missing/`undefined`/`null`, the
  empty string, or `false`. -/
inductive JSONField where
  | jnum (q : ℚ)
  | jstrNum (q : ℚ)
  | jstrNaN
  | jabsent
  deriving DecidableEq, Repr

namespace JSONField

/-- `v || d` followed by numeric conversion; `none` = `NaN`. -/
def orDefault (v : JSONField) (d : ℚ) : Option ℚ :=
  match v with
  | jnum q => if q = 0 then some d else some q
  | jstrNum q => some q
  | jstrNaN => none
  | jabsent => some d

end JSONField

/-- JS `Math.min(t, v)` with a possibly-`NaN` second argument
(`NaN` propagates). -/
def jsMinNum (t : ℚ) (v : Option ℚ) : Option ℚ :=
  v.map (fun q => min t q)

/-- JS `Math.max(t, v)` with a possibly-`NaN` second argument
(`NaN` propagates). -/
def jsMaxNum (t : ℚ) (v : Option ℚ) : Option ℚ :=
  v.map (fun q => max t q)

/-- The parsed reply object reaching `validateAndCleanAnalysis`: the string
unions are `Option String` (`none` = absent or not a string, which fails the
`includes` membership checks just like any other non-member), the numeric
fields are `JSONField`. -/
structure ParsedAnalysis where
  decision : Option String
  confidence : JSONField
  reasoning : Option String
  marketSentiment : Option String
  riskLevel : Option String
  suggestedLeverage : JSONField
  deriving DecidableEq, Repr

/-- The `AIAnalysis` record as returned by `validateAndCleanAnalysis`
(`indicators`/`kalman` pass-through fields omitted: they feed no decision
logic).  `confidence` and `suggestedLeverage` are `Option ℚ` with `none` =
`NaN`. -/
structure CleanAnalysis where
  decision : String
  confidence : Option ℚ
  reasoning : String
  marketSentiment : String
  riskLevel : String
  suggestedLeverage : Option ℚ
  deriving DecidableEq, Repr

namespace OllamaClient

/-- `OllamaClient.validateAndCleanAnalysis`. -/
def validateAndCleanAnalysis (analysis : ParsedAnalysis) : CleanAnalysis :=
  { decision :=
      if analysis.decision = some "BUY" ∨ analysis.decision = some "SELL" ∨
          analysis.decision = some "HOLD" then
        analysis.decision.getD "HOLD"
      else "HOLD"
    confidence := jsMaxNum 0 (jsMinNum 1 (analysis.confidence.orDefault 0.5))
    reasoning := analysis.reasoning.getD "Sin razonamiento proporcionado"
    marketSentiment :=
      if analysis.marketSentiment = some "bullish" ∨
          analysis.marketSentiment = some "bearish" ∨
          analysis.marketSentiment = some "neutral" then
        analysis.marketSentiment.getD "neutral"
      else "neutral"
    riskLevel :=
      if analysis.riskLevel = some "low" ∨ analysis.riskLevel = some "medium" ∨
          analysis.riskLevel = some "high" then
        analysis.riskLevel.getD "medium"
      else "medium"
    suggestedLeverage :=
      jsMaxNum 1 (jsMinNum 50 (analysis.suggestedLeverage.orDefault 5)) }

/-- `OllamaClient.fallbackParser`: scans the lowercased raw text for
buy/sell keywords (`buy`/`compra` before `sell`/`venta`) and returns a fixed
low-confidence object.  The substring tests are passed in as the already
evaluated `hasBuyWord`/`hasSellWord` booleans. -/
def fallbackParser (response : String) (hasBuyWord hasSellWord : Bool) :
    ParsedAnalysis :=
  { decision :=
      some (if hasBuyWord then "BUY" else if hasSellWord then "SELL" else "HOLD")
    confidence := .jnum 0.3
    reasoning := some (response.take 200)
    marketSentiment := some "neutral"
    riskLevel := some "medium"
    suggestedLeverage := .jnum 2 }

end OllamaClient

/-! ## BybitClient (`src/exchange/bybit-client.ts`) -/

/-- `Position` from `src/types/index.ts`. -/
structure Position where
  symbol : String
  side : String
  size : ℚ
  entryPrice : ℚ
  currentPrice : ℚ
  pnl : ℚ
  pnlPercentage : ℚ
  leverage : ℚ
  timestamp : ℤ
  deriving DecidableEq, Repr

/-- One entry of `response.result.list` of `/v5/position/list`, with the
string fields already run through `parseFloat`. -/
structure RawPositionEntry where
  symbol : String
  side : String
  size : ℚ
  avgPrice : ℚ
  markPrice : ℚ
  unrealisedPnl : ℚ
  leverage : ℚ
  deriving DecidableEq, Repr

namespace BybitClient

/-- The mapping applied to each raw entry by `getPositions`
(`now` is the `Date.now()` timestamp). -/
def toPosition (now : ℤ) (pos : RawPositionEntry) : Position :=
  { symbol := pos.symbol
    side := pos.side
    size := pos.size
    entryPrice := pos.avgPrice
    currentPrice := pos.markPrice
    pnl := pos.unrealisedPnl
    pnlPercentage := pos.unrealisedPnl / (pos.avgPrice * pos.size) * 100
    leverage := pos.leverage
    timestamp := now }

/-- `BybitClient.getPositions`, as a function of the authenticated request's
outcome: `Except.error` is any transport or API failure (the `catch` block
returns `[]`), `Except.ok none` is a reply without `result.list`, and
`Except.ok (some entries)` is a successful reply, filtered to `size > 0` and
mapped to `Position`. -/
def getPositions (now : ℤ)
    (response : Except Unit (Option (List RawPositionEntry))) : List Position :=
  match response with
  | .error _ => []
  | .ok none => []
  | .ok (some entries) =>
      (entries.filter (fun pos => pos.size > 0)).map (toPosition now)

end BybitClient

/-! ## Shared market/account records -/

/-- `MarketData` from `src/types/index.ts`. -/
structure MarketData where
  symbol : String
  price : ℚ
  volume : ℚ
  timestamp : ℤ
  high24h : ℚ
  low24h : ℚ
  change24h : ℚ
  bid : ℚ
  ask : ℚ
  deriving DecidableEq, Repr

/-- The balance record returned by `BybitClient.getBalance`. -/
structure Balance where
  totalBalance : ℚ
  availableBalance : ℚ
  usedMargin : ℚ
  deriving DecidableEq, Repr

/-- The instrument record returned by `BybitClient.getSymbolInfo`. -/
structure SymbolInfo where
  symbol : String
  baseCoin : String
  quoteCoin : String
  minOrderQty : ℚ
  maxOrderQty : ℚ
  tickSize : ℚ
  stepSize : ℚ
  deriving DecidableEq, Repr

/-- The strategy-side `AIAnalysis` (validated entry verdict).  The strategy
claims are settled for verdicts whose `confidence` is an actual number, so
here it is a plain `ℚ`; `OllamaClient.validateAndCleanAnalysis` above models
the `NaN` possibility. -/
structure AIAnalysis where
  decision : String
  confidence : ℚ
  reasoning : String
  marketSentiment : String
  riskLevel : String
  suggestedLeverage : ℚ
  deriving DecidableEq, Repr

/-- `TradeSignal` from `src/types/index.ts`. -/
structure TradeSignal where
  symbol : String
  action : String
  leverage : ℚ
  quantity : ℚ
  stopLoss : Option ℚ
  takeProfit : Option ℚ
  timestamp : ℤ
  aiAnalysis : AIAnalysis
  deriving DecidableEq, Repr

/-- JS `v > t` where `v` may be `NaN` (`none`): `NaN` compares `false`. -/
def jsGtNum (v : Option ℚ) (t : ℚ) : Bool :=
  match v with
  | none => false
  | some q => q > t

/-- JS `v || d` on numbers: `undefined`, `null`, `0` and `NaN` all fall back
to the default. -/
def jsOrNum (v : Option ℚ) (d : ℚ) : ℚ :=
  match v with
  | none => d
  | some q => if q = 0 then d else q

/-! ## RiskManager (`dist/risk/risk-manager.js`) -/

/-- The fields of the risk configuration read by `validateTrade`. -/
structure RiskConfig where
  maxLeverage : ℚ
  maxPositionSize : ℚ
  stopLossPercentage : ℚ
  maxDailyTrades : ℕ
  deriving DecidableEq, Repr

/-- The trade-parameter object passed to `RiskManager.validateTrade`. -/
structure TradeParams where
  symbol : String
  side : String
  quantity : ℚ
  leverage : Option ℚ
  stopLoss : Option ℚ
  takeProfit : Option ℚ
  deriving DecidableEq, Repr

/-- The `reason` strings of `validateTrade`'s return records, as an
enumeration (each constructor corresponds to one literal message of the
source). -/
inductive RiskReason where
  | dailyLimitReached
  | invalidQuantity
  | positionOverLimit
  | leverageOverLimit
  | exposureOverLimit
  | riskScoreTooHigh
  | stopLossInvalid
  | approvedOk
  deriving DecidableEq, Repr

/-- The record returned by `RiskManager.validateTrade`. -/
structure RiskValidation where
  approved : Bool
  reason : RiskReason
  adjustedParams : Option TradeParams
  riskScore : ℚ
  deriving DecidableEq, Repr

namespace RiskManager

/-- `RiskManager.calculateTotalExposure`: `Σ size·entryPrice`. -/
def calculateTotalExposure (positions : List Position) : ℚ :=
  positions.foldl (fun total pos => total + pos.size * pos.entryPrice) 0

/-- `RiskManager.calculateRiskScore`.  `volatilityRisk` is the already
fetched result of `calculateVolatilityRisk` (a network-dependent value). -/
def calculateRiskScore (config : RiskConfig) (balance : Balance)
    (currentPrice volatilityRisk : ℚ) (positions : List Position)
    (tradeParams : TradeParams) : ℚ :=
  let leverage := jsOrNum tradeParams.leverage 1
  let fromLeverage := leverage / config.maxLeverage * 0.3
  let positionRatio := tradeParams.quantity * currentPrice / balance.totalBalance
  let fromPosition := min (positionRatio * 2) 0.2
  let exposureRatio := calculateTotalExposure positions / balance.totalBalance
  let fromExposure := min (exposureRatio * 0.5) 0.2
  let fromVolatility := volatilityRisk * 0.3
  min 1 (fromLeverage + fromPosition + fromExposure + fromVolatility)

/-- `RiskManager.validateStopLoss` (`true` = valid).  `!tradeParams.stopLoss`
rejects both a missing and a zero stop loss. -/
def validateStopLoss (config : RiskConfig) (currentPrice : ℚ)
    (tradeParams : TradeParams) : Bool :=
  match tradeParams.stopLoss with
  | none => false
  | some sl =>
      if sl = 0 then false
      else
        let stopLossDistance := |currentPrice - sl| / currentPrice
        let maxAllowedDistance := config.stopLossPercentage * 1.05 / 100
        ¬(stopLossDistance > maxAllowedDistance)

/-- `RiskManager.validateTrade`, as a function of the fetched inputs: the
current `dailyTrades` counter (after the calendar reset), the balance, the
current price, the existing positions and the volatility risk.  The checks
short-circuit in source order. -/
def validateTrade (config : RiskConfig) (dailyTrades : ℕ) (balance : Balance)
    (currentPrice : ℚ) (existingPositions : List Position)
    (volatilityRisk : ℚ) (tradeParams : TradeParams) : RiskValidation :=
  if dailyTrades ≥ config.maxDailyTrades then
    { approved := false, reason := .dailyLimitReached,
      adjustedParams := none, riskScore := 1 }
  else if tradeParams.quantity ≤ 0 then
    { approved := false, reason := .invalidQuantity,
      adjustedParams := none, riskScore := 1 }
  else
    let requestedPositionValue := tradeParams.quantity * currentPrice
    let maxAllowedValue := balance.totalBalance * 0.3
    if requestedPositionValue > maxAllowedValue then
      let adjustedQuantity : ℚ := (⌊maxAllowedValue / currentPrice * 1000⌋ : ℤ) / 1000
      { approved := false, reason := .positionOverLimit,
        adjustedParams := some { tradeParams with quantity := adjustedQuantity },
        riskScore := 0.8 }
    else
      let leverage := jsOrNum tradeParams.leverage 1
      if leverage > config.maxLeverage then
        { approved := false, reason := .leverageOverLimit,
          adjustedParams := none, riskScore := 0.9 }
      else
        let totalExposure := calculateTotalExposure existingPositions
        if totalExposure + requestedPositionValue > config.maxPositionSize then
          { approved := false, reason := .exposureOverLimit,
            adjustedParams := none, riskScore := 0.7 }
        else
          let riskScore := calculateRiskScore config balance currentPrice
            volatilityRisk existingPositions tradeParams
          if riskScore > 0.8 then
            { approved := false, reason := .riskScoreTooHigh,
              adjustedParams := none, riskScore := riskScore }
          else if ¬(validateStopLoss config currentPrice tradeParams) then
            { approved := false, reason := .stopLossInvalid,
              adjustedParams := none, riskScore := 0.6 }
          else
            { approved := true, reason := .approvedOk,
              adjustedParams := none, riskScore := riskScore }

end RiskManager

/-! ## TradingStrategy (`src/strategy/trading-strategy.ts`) -/

/-- The per-position tracking record kept in `this.positionTracking`. -/
structure Tracking where
  symbol : String
  side : String
  entryPrice : ℚ
  entryTime : ℤ
  maxPriceReached : ℚ
  minPriceReached : ℚ
  trailingStopActive : Bool
  profitLadderExecuted : List ℕ
  lastOrderCheckTime : ℤ
  tradeId : Option String
  deriving DecidableEq, Repr

/-- The analysis bundle returned by `performCompleteAnalysis`. -/
structure AnalysisBundle where
  technical : TechnicalIndicators
  kalman : KalmanPrediction
  ai : AIAnalysis
  marketData : MarketData
  deriving DecidableEq, Repr

/-- One entry of the `strategies` array of `evaluateExitStrategies`
(the free-text `reason` feeds only the logs and is omitted). -/
structure ExitStrategy where
  name : String
  triggered : Bool
  score : ℚ
  action : String
  deriving DecidableEq, Repr

/-- The record returned by `evaluateExitStrategies` (and built inline for the
AI-decision path); `bestStrategy` is absent in the `HOLD` case. -/
structure ExitDecision where
  action : String
  bestStrategy : Option ExitStrategy
  strategies : List ExitStrategy
  deriving DecidableEq, Repr

/-- Whether `pat` is an initial segment of `l` (character-list version). -/
def charsStartWith : List Char → List Char → Bool
  | _, [] => true
  | [], _ :: _ => false
  | c :: cs, d :: ds => c = d && charsStartWith cs ds

/-- Whether `pat` occurs contiguously inside `l` (character-list version). -/
def charsContain : List Char → List Char → Bool
  | [], pat => pat.isEmpty
  | c :: cs, pat => charsStartWith (c :: cs) pat || charsContain cs pat

/-- JS `String.prototype.includes`: substring containment. -/
def jsIncludes (s sub : String) : Bool :=
  charsContain s.data sub.data

/-- The regex match `/\d+$/` followed by `parseInt`: the maximal run of
trailing decimal digits, when nonempty. -/
def trailingDigits (s : String) : Option ℕ :=
  let ds := (s.data.reverse.takeWhile Char.isDigit).reverse
  if ds.isEmpty then none
  else some (ds.foldl (fun n c => 10 * n + (c.toNat - 48)) 0)

namespace TradingStrategy

/-- `TradingStrategy.calculateOptimalLeverage`: conservative base 5 plus the
confidence/indicator bonuses, capped at 20 for the scalping profile.  The
Kalman confidence may be `NaN` (`none`), in which case both `>` tests are
false exactly as in JS. -/
def calculateOptimalLeverage (ai : AIAnalysis) (technical : TechnicalIndicators)
    (kalman : KalmanPrediction) : ℚ :=
  let fromAI : ℚ :=
    if ai.confidence > 0.9 then 10
    else if ai.confidence > 0.8 then 7
    else if ai.confidence > 0.7 then 5
    else if ai.confidence > 0.6 then 3
    else 0
  let fromKalman : ℚ :=
    if jsGtNum kalman.confidence 0.85 then 5
    else if jsGtNum kalman.confidence 0.75 then 3
    else 0
  let fromRSI : ℚ :=
    if technical.rsi < 25 ∨ technical.rsi > 75 then 5
    else if technical.rsi < 30 ∨ technical.rsi > 70 then 2
    else 0
  let fromMACD : ℚ := if |technical.macd.histogram| > 0.001 then 2 else 0
  let fromVolume : ℚ := if technical.volume.ratio > 2 then 2 else 0
  min (5 + fromAI + fromKalman + fromRSI + fromMACD + fromVolume) 20

/-- `TradingStrategy.calculatePositionSize`, as a function of the fetched
balance and instrument info.  `symbolInfo.stepSize || 0.001` and
`symbolInfo.minOrderQty || 0.001` fall back on a zero field. -/
def calculatePositionSize (balance : Balance) (symbolInfo : SymbolInfo)
    (price leverage : ℚ) : ℚ :=
  if balance.availableBalance ≤ 0 then 0.001
  else if price ≤ 0 then 0.001
  else
    let riskPercentage := min 10 (leverage / 3)
    let capitalToRisk := balance.availableBalance * (riskPercentage / 100)
    let positionValue := capitalToRisk * leverage
    let quantity := positionValue / price
    if quantity ≤ 0 then 0.001
    else
      let stepSize := if symbolInfo.stepSize = 0 then 0.001 else symbolInfo.stepSize
      let floored : ℚ := (⌊quantity / stepSize⌋ : ℤ) * stepSize
      let minQty := if symbolInfo.minOrderQty = 0 then 0.001 else symbolInfo.minOrderQty
      if floored < minQty then minQty else floored

/-- `TradingStrategy.calculateStopLoss`: entry ± 0.6 % by side
(the `_technical` parameter is unused in the source as well). -/
def calculateStopLoss (price : ℚ) (decision : String)
    (_technical : TechnicalIndicators) : ℚ :=
  let stopLossPercentage : ℚ := 0.006
  if decision = "BUY" then price * (1 - stopLossPercentage)
  else price * (1 + stopLossPercentage)

/-- `TradingStrategy.calculateTakeProfit`: risk-reward ratio
`1.5 + 0.5·confidence` applied to the stop-loss distance. -/
def calculateTakeProfit (price stopLoss confidence : ℚ) : ℚ :=
  let riskRewardRatio := 1.5 + confidence * 0.5
  let stopLossDistance := |price - stopLoss|
  let takeProfitDistance := stopLossDistance * riskRewardRatio
  if price > stopLoss then price + takeProfitDistance
  else price - takeProfitDistance

/-- `TradingStrategy.generateTradingSignal`, as a function of the fetched
positions/balance/instrument info.  When a position exists, every branch of
the side/decision case split returns `null`; otherwise a signal is built for
a non-`HOLD` verdict with positive computed quantity. -/
def generateTradingSignal (symbol : String) (now : ℤ)
    (analysis : AnalysisBundle) (existingPositions : List Position)
    (balance : Balance) (symbolInfo : SymbolInfo) : Option TradeSignal :=
  let ai := analysis.ai
  match existingPositions with
  | position :: _ =>
      if position.side = "Buy" ∧ ai.decision = "BUY" then none
      else if position.side = "Sell" ∧ ai.decision = "SELL" then none
      else if position.side = "Buy" ∧ ai.decision = "SELL" then none
      else if position.side = "Sell" ∧ ai.decision = "BUY" then none
      else none
  | [] =>
      if ai.decision = "HOLD" then none
      else
        let leverage := calculateOptimalLeverage ai analysis.technical analysis.kalman
        let quantity := calculatePositionSize balance symbolInfo
          analysis.marketData.price leverage
        if quantity ≤ 0 then none
        else
          let stopLoss := calculateStopLoss analysis.marketData.price ai.decision
            analysis.technical
          let takeProfit := calculateTakeProfit analysis.marketData.price
            stopLoss ai.confidence
          some { symbol := symbol
                 action := ai.decision
                 leverage := leverage
                 quantity := quantity
                 stopLoss := some stopLoss
                 takeProfit := some takeProfit
                 timestamp := now
                 aiAnalysis := ai }

/-- The `!riskValidation.approved` handling of
`TradingStrategy.executeTradingAction` (lines 281–296): an approved signal is
executed as is; a rejected one is executed with the adjusted parameters when
they exist and carry a positive quantity, and skipped otherwise.  The result
is the order actually submitted to the venue (`none` = skipped).  The
adjusted `leverage`/`stopLoss`/`takeProfit` are spread copies of the
proposal's own fields, hence always present (`getD` unwraps `leverage`). -/
def executeTradingAction (signal : TradeSignal) (riskValidation : RiskValidation) :
    Option TradeSignal :=
  if riskValidation.approved then some signal
  else
    match riskValidation.adjustedParams with
    | some adjusted =>
        if adjusted.quantity > 0 then
          some { signal with
                 quantity := adjusted.quantity
                 leverage := adjusted.leverage.getD signal.leverage
                 stopLoss := adjusted.stopLoss
                 takeProfit := adjusted.takeProfit }
        else none
    | none => none

/-- The trade-parameter object `executeTradingAction` hands to
`RiskManager.validateTrade`. -/
def tradeParamsOfSignal (signal : TradeSignal) : TradeParams :=
  { symbol := signal.symbol
    side := if signal.action = "BUY" then "Buy" else "Sell"
    quantity := signal.quantity
    leverage := some signal.leverage
    stopLoss := signal.stopLoss
    takeProfit := signal.takeProfit }

/-- The max/min update of `manageExistingPositions` (run before the trailing
stop): `maxPriceReached` absorbs the current price for a LONG,
`minPriceReached` for a SHORT. -/
def updateMaxMinPrices (tracking : Tracking) (position : Position) : Tracking :=
  if position.side = "Buy" then
    { tracking with
      maxPriceReached := max tracking.maxPriceReached position.currentPrice }
  else
    { tracking with
      minPriceReached := min tracking.minPriceReached position.currentPrice }

/-- `TradingStrategy.updateTrailingStop`: activate at `pnl ≥ 0.5 %`; while
active, propose `max·(1 − 0.3 %)` (LONG) / `min·(1 + 0.3 %)` (SHORT) and call
`updatePositionStopLoss` only when the proposal clears the
`entry·0.98` / `entry·1.02` guard.  Returns the updated tracking and the stop
price submitted to the venue (`none` = no call). -/
def updateTrailingStop (position : Position) (tracking : Tracking) :
    Tracking × Option ℚ :=
  let pnlPercentage := position.pnlPercentage
  let trailingActivationThreshold : ℚ := 0.5
  let trailingDistance : ℚ := 0.3
  let tracking' :=
    if pnlPercentage ≥ trailingActivationThreshold ∧ ¬tracking.trailingStopActive
    then { tracking with trailingStopActive := true }
    else tracking
  if tracking'.trailingStopActive then
    if position.side = "Buy" then
      let newStopLoss := tracking'.maxPriceReached * (1 - trailingDistance / 100)
      if newStopLoss > position.entryPrice * 0.98 then (tracking', some newStopLoss)
      else (tracking', none)
    else
      let newStopLoss := tracking'.minPriceReached * (1 + trailingDistance / 100)
      if newStopLoss < position.entryPrice * 1.02 then (tracking', some newStopLoss)
      else (tracking', none)
  else (tracking', none)

/-- One management tick of the trailing-stop machinery, as run by
`manageExistingPositions` for a live position: the max/min update followed by
`updateTrailingStop`. -/
def trailingTick (tracking : Tracking) (position : Position) :
    Tracking × Option ℚ :=
  updateTrailingStop position (updateMaxMinPrices tracking position)

/-- The stop prices submitted to the venue across a sequence of management
ticks over the position snapshots `ps`, in order. -/
def trailingRun (tracking : Tracking) : List Position → List ℚ
  | [] => []
  | p :: rest =>
      let step := trailingTick tracking p
      step.2.toList ++ trailingRun step.1 rest

/-- A venue-consistent position snapshot for a `side` position entered at
`entry`: the side and entry price are those of the position, and
`pnlPercentage` is the value the venue adapter computes,
`unrealised_pnl / (entry·size) · 100` with the linear-perpetual
`unrealised_pnl = ±(mark − entry)·size`, i.e. the relative price move in
percent (not leverage-adjusted, as documented in the specification). -/
def consistentSnapshot (side : String) (entry : ℚ) (p : Position) : Prop :=
  p.side = side ∧ p.entryPrice = entry ∧
  p.pnlPercentage =
    (if side = "Buy" then (p.currentPrice - entry) / entry
     else (entry - p.currentPrice) / entry) * 100

/-- `TradingStrategy.evaluateExitStrategies`, as a pure function of the
position, its tracking record, the analysis bundle and the current time
(`Date.now()`).  The five backup strategies are accumulated in source order
and the best score wins (`reduce` keeps the earlier entry on ties). -/
def evaluateExitStrategies (position : Position) (tracking : Tracking)
    (analysis : AnalysisBundle) (now : ℤ) : ExitDecision :=
  let ai := analysis.ai
  let technical := analysis.technical
  let timeInPosition : ℚ := ((now - tracking.entryTime : ℤ) : ℚ) / (1000 * 60 * 60)
  let pnlPercentage := position.pnlPercentage
  let aiReversal : List ExitStrategy :=
    if (position.side = "Buy" ∧ ai.decision = "SELL" ∧ ai.confidence > 0.7) ∨
        (position.side = "Sell" ∧ ai.decision = "BUY" ∧ ai.confidence > 0.7) then
      [{ name := "AI_REVERSAL_SIGNAL", triggered := true, score := 1,
         action := "CLOSE_FULL" }]
    else []
  let stale : List ExitStrategy :=
    if timeInPosition > 2 ∧ pnlPercentage < 0.3 then
      [{ name := "POSITION_STALE", triggered := true, score := 0.6,
         action := "CLOSE_FULL" }]
    else []
  let volatilitySpike : List ExitStrategy :=
    if technical.volume.ratio > 5 then
      [{ name := "VOLATILITY_SPIKE", triggered := true, score := 0.7,
         action := "CLOSE_50" }]
    else []
  let profitLadder : List ExitStrategy :=
    if pnlPercentage ≥ 0.3 ∧ ¬(tracking.profitLadderExecuted.contains 30) then
      [{ name := "PROFIT_LADDER_30", triggered := true, score := 0.5,
         action := "CLOSE_25" }]
    else if pnlPercentage ≥ 0.6 ∧ ¬(tracking.profitLadderExecuted.contains 60) then
      [{ name := "PROFIT_LADDER_60", triggered := true, score := 0.6,
         action := "CLOSE_50" }]
    else if pnlPercentage ≥ 1 ∧ ¬(tracking.profitLadderExecuted.contains 100) then
      [{ name := "PROFIT_LADDER_100", triggered := true, score := 0.9,
         action := "CLOSE_FULL" }]
    else []
  let technicalReversal : List ExitStrategy :=
    if position.side = "Buy" then
      if technical.rsi > 80 ∧ technical.macd.histogram < 0 then
        [{ name := "TECHNICAL_REVERSAL", triggered := true, score := 0.75,
           action := "CLOSE_50" }]
      else []
    else
      if technical.rsi < 20 ∧ technical.macd.histogram > 0 then
        [{ name := "TECHNICAL_REVERSAL", triggered := true, score := 0.75,
           action := "CLOSE_50" }]
      else []
  let strategies :=
    aiReversal ++ stale ++ volatilitySpike ++ profitLadder ++ technicalReversal
  match strategies with
  | [] => { action := "HOLD", bestStrategy := none, strategies := [] }
  | h :: t =>
      let bestStrategy :=
        t.foldl (fun prev current =>
          if prev.score > current.score then prev else current) h
      { action := bestStrategy.action
        bestStrategy := some bestStrategy
        strategies := strategies }

/-- `TradingStrategy.executeExitAction`: the close percentage submitted to
the venue (`none` = no close) and the tracking record afterwards.  Only the
`CLOSE_25` branch records a profit-ladder level (the trailing digits of the
best strategy's name); `CLOSE_50` and `CLOSE_FULL`/`CLOSE_100` do not touch
`profitLadderExecuted`. -/
def executeExitAction (exitDecision : ExitDecision) (tracking : Option Tracking) :
    Option ℕ × Option Tracking :=
  if exitDecision.action = "CLOSE_FULL" ∨ exitDecision.action = "CLOSE_100" then
    (some 100, tracking)
  else if exitDecision.action = "CLOSE_50" then
    (some 50, tracking)
  else if exitDecision.action = "CLOSE_25" then
    (some 25,
     match tracking, exitDecision.bestStrategy with
     | some tr, some best =>
         if jsIncludes best.name "PROFIT_LADDER" then
           match trailingDigits best.name with
           | some level =>
               some { tr with
                      profitLadderExecuted := tr.profitLadderExecuted ++ [level] }
           | none => some tr
         else some tr
     | t, _ => t)
  else (none, tracking)

/-- The backup-exit path of `manageExistingPositions` (the `else` branch
taken when the position-verdict of the reasoning engine is `HOLD`): evaluate
the backup strategies, execute a non-`HOLD` recommendation, and delete the
tracking record after a full close.  Returns the close percentage submitted
(`none` = none) and the tracking record after the tick. -/
def backupExitTick (position : Position) (analysis : AnalysisBundle) (now : ℤ)
    (tracking : Tracking) : Option ℕ × Option Tracking :=
  let exitDecision := evaluateExitStrategies position tracking analysis now
  if exitDecision.action ≠ "HOLD" then
    let result := executeExitAction exitDecision (some tracking)
    (result.1, if exitDecision.action = "CLOSE_FULL" then none else result.2)
  else (none, some tracking)

end TradingStrategy

/-! ## Shared sample inputs (used by witnesses and counterexamples) -/

/-- A neutral technical-indicator record. -/
def sampleTechnical : TechnicalIndicators :=
  { rsi := 50
    macd := { macd := 0, signal := 0, histogram := 0 }
    bollinger := { upper := 0, middle := 0, lower := 0 }
    ema := { ema9 := 0, ema21 := 0, ema50 := 0 }
    volume := { avg := 1, current := 1, ratio := 1 } }

/-- A sample Kalman prediction. -/
def sampleKalman : KalmanPrediction :=
  { predictedPrice := 50000, confidence := some 0.5, trend := "neutral",
    timeframe := "5m", accuracy := 0.5 }

/-- A sample validated entry verdict. -/
def sampleAI (decision : String) : AIAnalysis :=
  { decision := decision, confidence := 0.8, reasoning := "r",
    marketSentiment := "neutral", riskLevel := "medium", suggestedLeverage := 10 }

/-- A sample market snapshot at price 50000. -/
def sampleMarketData : MarketData :=
  { symbol := "BTCUSDT", price := 50000, volume := 1000, timestamp := 0,
    high24h := 51000, low24h := 49000, change24h := 1, bid := 49999,
    ask := 50001 }

/-- A sample analysis bundle. -/
def sampleBundle (decision : String) : AnalysisBundle :=
  { technical := sampleTechnical, kalman := sampleKalman,
    ai := sampleAI decision, marketData := sampleMarketData }

/-- A sample LONG position snapshot. -/
def samplePosition : Position :=
  { symbol := "BTCUSDT", side := "Buy", size := 1, entryPrice := 50000,
    currentPrice := 50350, pnl := 350, pnlPercentage := 0.7, leverage := 10,
    timestamp := 0 }

/-- A sample balance of 10000 USDT. -/
def sampleBalance : Balance :=
  { totalBalance := 10000, availableBalance := 10000, usedMargin := 0 }

/-- Sample instrument metadata with step size 0.001. -/
def sampleSymbolInfo : SymbolInfo :=
  { symbol := "BTCUSDT", baseCoin := "BTC", quoteCoin := "USDT",
    minOrderQty := 0.001, maxOrderQty := 100, tickSize := 0.1,
    stepSize := 0.001 }

/-- A sample parsed reasoning-engine reply: lowercase decision, out-of-range
numeric confidence, unknown risk level, absent leverage. -/
def sampleParsed : ParsedAnalysis :=
  { decision := some "buy", confidence := .jnum 2, reasoning := none,
    marketSentiment := some "bull", riskLevel := some "extreme",
    suggestedLeverage := .jabsent }

/-- A flat candle at open time `t` with all prices `c` and volume 1. -/
def candle (t : ℤ) (c : ℚ) : Kline :=
  { openTime := t, closeTime := t + 300000, open_ := c, high := c, low := c,
    close := c, volume := 1 }

/-- Ten candles with a constant close of 100. -/
def flatWindow : List Kline :=
  [candle 0 100, candle 1 100, candle 2 100, candle 3 100, candle 4 100,
   candle 5 100, candle 6 100, candle 7 100, candle 8 100, candle 9 100]

/-- Ten candles whose closes are 100 except a final 101. -/
def sampleWindow : List Kline :=
  [candle 0 100, candle 1 100, candle 2 100, candle 3 100, candle 4 100,
   candle 5 100, candle 6 100, candle 7 100, candle 8 100, candle 9 101]

/-- A sample risk configuration (leverage cap 20, max daily trades 10). -/
def sampleRiskConfig : RiskConfig :=
  { maxLeverage := 20, maxPositionSize := 1000000, stopLossPercentage := 3,
    maxDailyTrades := 10 }

/-- A sample BUY signal for 1 BTC at price 50000. -/
def sampleSignal : TradeSignal :=
  { symbol := "BTCUSDT", action := "BUY", leverage := 10, quantity := 1,
    stopLoss := some 49700, takeProfit := some 50570, timestamp := 0,
    aiAnalysis := sampleAI "BUY" }

/-- A nearly empty account: total balance 1 USDT. -/
def tinyBalance : Balance :=
  { totalBalance := 1, availableBalance := 1, usedMargin := 0 }

/-- A tracking record for `samplePosition` on which the 0.3 profit-ladder
rung has already fired (level 30 recorded). -/
def ladderTracking : Tracking :=
  { symbol := "BTCUSDT", side := "Buy", entryPrice := 50000, entryTime := 0,
    maxPriceReached := 50350, minPriceReached := 50000,
    trailingStopActive := false, profitLadderExecuted := [30],
    lastOrderCheckTime := 0, tradeId := none }

/-! ## Helper lemmas -/

/-- Clamping with `max a (min b ·)` lands in `[a, b]` whenever `a ≤ b`. -/
theorem clamp_mem_Icc (a b y : ℚ) (hab : a ≤ b) :
    a ≤ max a (min b y) ∧ max a (min b y) ≤ b :=
  ⟨le_max_left a _, max_le hab (min_le_left b y)⟩

/-- A Kalman step leaves the estimate unchanged on a zero innovation. -/
theorem kalmanStep_const (Q R P c : ℚ) :
    KalmanFilter.kalmanStep Q R (c, P) c =
      (c, (1 - (P + Q) / (P + Q + R)) * (P + Q)) := by
  simp only [KalmanFilter.kalmanStep, Prod.mk.injEq]
  constructor <;> ring_nf

/-- The Kalman recursion started at `c` maps a constant series to itself
(every innovation is zero). -/
theorem runKalmanAux_const (Q R c : ℚ) :
    ∀ (l : List ℚ) (P : ℚ), (∀ x ∈ l, x = c) →
      KalmanFilter.runKalmanAux Q R (c, P) l = l
  | [], _, _ => rfl
  | z :: rest, P, h => by
      have hz : z = c := h z (List.mem_cons_self z rest)
      subst hz
      simp only [KalmanFilter.runKalmanAux, kalmanStep_const]
      exact congrArg (z :: ·)
        (runKalmanAux_const Q R z rest _ (fun x hx => h x (List.mem_cons_of_mem z hx)))

/-- The filtered series has the length of the input series. -/
theorem runKalmanAux_length (Q R : ℚ) :
    ∀ (l : List ℚ) (s : ℚ × ℚ),
      (KalmanFilter.runKalmanAux Q R s l).length = l.length
  | [], _ => rfl
  | z :: rest, s => by
      simp [KalmanFilter.runKalmanAux, runKalmanAux_length Q R rest]

/-! ## Claim C8 — MACD signal approximation -/

/-- Claim C8: for every close-price series, `calculateMACD` returns
`macd = EMA(12) − EMA(26)` of the closes, `signal = 0.9 × macd`,
`histogram = macd − signal`, and hence `histogram = 0.1 × macd`: the signal
line is the fixed 0.9 multiple of the MACD line. -/
theorem c8_macd_signal_is_fixed_fraction (prices : List ℚ) :
    (TechnicalAnalysis.calculateMACD prices).macd =
      TechnicalAnalysis.calculateEMA prices 12 -
        TechnicalAnalysis.calculateEMA prices 26 ∧
    (TechnicalAnalysis.calculateMACD prices).signal =
      0.9 * (TechnicalAnalysis.calculateMACD prices).macd ∧
    (TechnicalAnalysis.calculateMACD prices).histogram =
      (TechnicalAnalysis.calculateMACD prices).macd -
        (TechnicalAnalysis.calculateMACD prices).signal ∧
    (TechnicalAnalysis.calculateMACD prices).histogram =
      0.1 * (TechnicalAnalysis.calculateMACD prices).macd := by
  refine ⟨rfl, ?_, rfl, ?_⟩
  · simp only [TechnicalAnalysis.calculateMACD]
    ring
  · simp only [TechnicalAnalysis.calculateMACD]
    ring

/-! ## Claim C10 — venue outage reads as "no position open" -/

/-- Claim C10: on any transport or API error (`Except.error`), `getPositions`
returns the empty list instead of propagating the failure, so the
new-entry guard of `generateTradingSignal` sees the same empty position list
as when genuinely no position is open: the at-most-one-position guard
depends on the positions call succeeding. -/
theorem c10_getPositions_error_empty (now : ℤ) (e : Unit) (symbol : String)
    (tickNow : ℤ) (analysis : AnalysisBundle) (balance : Balance)
    (symbolInfo : SymbolInfo) :
    BybitClient.getPositions now (.error e) = [] ∧
    TradingStrategy.generateTradingSignal symbol tickNow analysis
        (BybitClient.getPositions now (.error e)) balance symbolInfo =
      TradingStrategy.generateTradingSignal symbol tickNow analysis []
        balance symbolInfo :=
  ⟨rfl, rfl⟩

/-! ## Claim C1 — no new entry while a position exists -/

/-- Claim C1: whenever the venue positions snapshot for the symbol is
non-empty, `generateTradingSignal` returns `null`, regardless of the entry
verdict's decision (every branch of the position case split returns `null`),
so no opening order — in particular none opposite to the existing
position — is ever produced by the new-entry path. -/
theorem c1_no_signal_when_position_exists (symbol : String) (now : ℤ)
    (analysis : AnalysisBundle) (existingPositions : List Position)
    (balance : Balance) (symbolInfo : SymbolInfo)
    (h : existingPositions ≠ []) :
    TradingStrategy.generateTradingSignal symbol now analysis
      existingPositions balance symbolInfo = none := by
  match existingPositions, h with
  | position :: rest, _ =>
      simp only [TradingStrategy.generateTradingSignal]
      split_ifs <;> rfl

/-- Witness for C1: a concrete tick with an open LONG and a SELL verdict
(the opposite side) produces no signal. -/
theorem c1_no_signal_when_position_exists_witness :
    [samplePosition] ≠ ([] : List Position) ∧
    TradingStrategy.generateTradingSignal "BTCUSDT" 0 (sampleBundle "SELL")
      [samplePosition] sampleBalance sampleSymbolInfo = none :=
  ⟨by decide,
   c1_no_signal_when_position_exists "BTCUSDT" 0 (sampleBundle "SELL")
     [samplePosition] sampleBalance sampleSymbolInfo (by decide)⟩

/-! ## Claim C9 — validation/coercion of the reasoning-engine reply -/

/-- Counterexample to C9 as stated: a parseable reply whose `confidence`
field is a truthy non-numeric value (e.g. the string `"high"`) passes
`v || 0.5` untouched, and `Math.max(0, Math.min(1, v))` then yields `NaN`
(`none`), which is not in `[0, 1]`; nothing coerces it to 0.5. -/
theorem c9_counterexample_nonnumeric_confidence :
    (OllamaClient.validateAndCleanAnalysis
      { decision := some "BUY", confidence := .jstrNaN, reasoning := some "r",
        marketSentiment := some "neutral", riskLevel := some "medium",
        suggestedLeverage := .jnum 10 }).decision = "BUY" ∧
    (OllamaClient.validateAndCleanAnalysis
      { decision := some "BUY", confidence := .jstrNaN, reasoning := some "r",
        marketSentiment := some "neutral", riskLevel := some "medium",
        suggestedLeverage := .jnum 10 }).confidence = none := by
  exact ⟨rfl, rfl⟩

/-- Claim C9 (amended): provided the `confidence` and `suggested_leverage`
fields of the parsed reply are numeric or falsy/absent (not truthy
non-numeric values, whose JS numeric conversion is `NaN`), the validated
verdict satisfies: decision ∈ \x7bBUY, SELL, HOLD\x7d with anything else
coerced to HOLD, confidence ∈ [0,1] with an absent field coerced to 0.5,
suggested_leverage ∈ [1,50] with an absent field coerced to 5, and
risk_level ∈ \x7blow, medium, high\x7d with anything else coerced to
medium. -/
theorem c9_validated_verdict_ranges (a : ParsedAnalysis)
    (hc : a.confidence ≠ .jstrNaN) (hl : a.suggestedLeverage ≠ .jstrNaN) :
    ((OllamaClient.validateAndCleanAnalysis a).decision = "BUY" ∨
      (OllamaClient.validateAndCleanAnalysis a).decision = "SELL" ∨
      (OllamaClient.validateAndCleanAnalysis a).decision = "HOLD") ∧
    (a.decision ≠ some "BUY" → a.decision ≠ some "SELL" →
      a.decision ≠ some "HOLD" →
      (OllamaClient.validateAndCleanAnalysis a).decision = "HOLD") ∧
    (∃ c, (OllamaClient.validateAndCleanAnalysis a).confidence = some c ∧
      0 ≤ c ∧ c ≤ 1) ∧
    (a.confidence = .jabsent →
      (OllamaClient.validateAndCleanAnalysis a).confidence = some 0.5) ∧
    (∃ l, (OllamaClient.validateAndCleanAnalysis a).suggestedLeverage = some l ∧
      1 ≤ l ∧ l ≤ 50) ∧
    (a.suggestedLeverage = .jabsent →
      (OllamaClient.validateAndCleanAnalysis a).suggestedLeverage = some 5) ∧
    ((OllamaClient.validateAndCleanAnalysis a).riskLevel = "low" ∨
      (OllamaClient.validateAndCleanAnalysis a).riskLevel = "medium" ∨
      (OllamaClient.validateAndCleanAnalysis a).riskLevel = "high") ∧
    (a.riskLevel ≠ some "low" → a.riskLevel ≠ some "medium" →
      a.riskLevel ≠ some "high" →
      (OllamaClient.validateAndCleanAnalysis a).riskLevel = "medium") := by
  refine ⟨?_, ?_, ?_, ?_, ?_, ?_, ?_, ?_⟩
  · simp only [OllamaClient.validateAndCleanAnalysis]
    split_ifs with h
    · rcases h with h | h | h <;> simp [h]
    · simp
  · intro h1 h2 h3
    simp only [OllamaClient.validateAndCleanAnalysis]
    split_ifs with h
    · rcases h with h | h | h <;> simp_all
    · rfl
  · simp only [OllamaClient.validateAndCleanAnalysis, jsMaxNum, jsMinNum]
    cases hconf : a.confidence with
    | jnum q =>
        by_cases hq : q = 0
        · exact ⟨_, by simp [JSONField.orDefault, hq],
            (clamp_mem_Icc 0 1 0.5 (by norm_num)).1,
            (clamp_mem_Icc 0 1 0.5 (by norm_num)).2⟩
        · exact ⟨_, by simp [JSONField.orDefault, hq],
            (clamp_mem_Icc 0 1 q (by norm_num)).1,
            (clamp_mem_Icc 0 1 q (by norm_num)).2⟩
    | jstrNum q =>
        exact ⟨_, by simp [JSONField.orDefault],
          (clamp_mem_Icc 0 1 q (by norm_num)).1,
          (clamp_mem_Icc 0 1 q (by norm_num)).2⟩
    | jstrNaN => exact absurd hconf hc
    | jabsent =>
        exact ⟨_, by simp [JSONField.orDefault],
          (clamp_mem_Icc 0 1 0.5 (by norm_num)).1,
          (clamp_mem_Icc 0 1 0.5 (by norm_num)).2⟩
  · intro h
    simp only [OllamaClient.validateAndCleanAnalysis, jsMaxNum, jsMinNum, h,
      JSONField.orDefault, Option.map_some]
    norm_num
  · simp only [OllamaClient.validateAndCleanAnalysis, jsMaxNum, jsMinNum]
    cases hlev : a.suggestedLeverage with
    | jnum q =>
        by_cases hq : q = 0
        · exact ⟨_, by simp [JSONField.orDefault, hq],
            (clamp_mem_Icc 1 50 5 (by norm_num)).1,
            (clamp_mem_Icc 1 50 5 (by norm_num)).2⟩
        · exact ⟨_, by simp [JSONField.orDefault, hq],
            (clamp_mem_Icc 1 50 q (by norm_num)).1,
            (clamp_mem_Icc 1 50 q (by norm_num)).2⟩
    | jstrNum q =>
        exact ⟨_, by simp [JSONField.orDefault],
          (clamp_mem_Icc 1 50 q (by norm_num)).1,
          (clamp_mem_Icc 1 50 q (by norm_num)).2⟩
    | jstrNaN => exact absurd hlev hl
    | jabsent =>
        exact ⟨_, by simp [JSONField.orDefault],
          (clamp_mem_Icc 1 50 5 (by norm_num)).1,
          (clamp_mem_Icc 1 50 5 (by norm_num)).2⟩
  · intro h
    simp only [OllamaClient.validateAndCleanAnalysis, jsMaxNum, jsMinNum, h,
      JSONField.orDefault, Option.map_some]
    norm_num
  · simp only [OllamaClient.validateAndCleanAnalysis]
    split_ifs with h
    · rcases h with h | h | h <;> simp [h]
    · simp
  · intro h1 h2 h3
    simp only [OllamaClient.validateAndCleanAnalysis]
    split_ifs with h
    · rcases h with h | h | h <;> simp_all
    · rfl

/-- Witness for C9: a reply with a lowercase decision, an out-of-range
numeric confidence, an absent leverage and an unknown risk level is coerced
into the advertised ranges. -/
theorem c9_validated_verdict_ranges_witness :
    (sampleParsed.confidence ≠ .jstrNaN) ∧
    (sampleParsed.suggestedLeverage ≠ .jstrNaN) ∧
    (((OllamaClient.validateAndCleanAnalysis sampleParsed).decision = "BUY" ∨
      (OllamaClient.validateAndCleanAnalysis sampleParsed).decision = "SELL" ∨
      (OllamaClient.validateAndCleanAnalysis sampleParsed).decision = "HOLD") ∧
    (sampleParsed.decision ≠ some "BUY" → sampleParsed.decision ≠ some "SELL" →
      sampleParsed.decision ≠ some "HOLD" →
      (OllamaClient.validateAndCleanAnalysis sampleParsed).decision = "HOLD") ∧
    (∃ c, (OllamaClient.validateAndCleanAnalysis sampleParsed).confidence = some c ∧
      0 ≤ c ∧ c ≤ 1) ∧
    (sampleParsed.confidence = .jabsent →
      (OllamaClient.validateAndCleanAnalysis sampleParsed).confidence = some 0.5) ∧
    (∃ l, (OllamaClient.validateAndCleanAnalysis sampleParsed).suggestedLeverage = some l ∧
      1 ≤ l ∧ l ≤ 50) ∧
    (sampleParsed.suggestedLeverage = .jabsent →
      (OllamaClient.validateAndCleanAnalysis sampleParsed).suggestedLeverage = some 5) ∧
    ((OllamaClient.validateAndCleanAnalysis sampleParsed).riskLevel = "low" ∨
      (OllamaClient.validateAndCleanAnalysis sampleParsed).riskLevel = "medium" ∨
      (OllamaClient.validateAndCleanAnalysis sampleParsed).riskLevel = "high") ∧
    (sampleParsed.riskLevel ≠ some "low" → sampleParsed.riskLevel ≠ some "medium" →
      sampleParsed.riskLevel ≠ some "high" →
      (OllamaClient.validateAndCleanAnalysis sampleParsed).riskLevel = "medium")) :=
  ⟨by decide, by decide,
   c9_validated_verdict_ranges sampleParsed (by decide) (by decide)⟩

/-! ## Claim C6 — risk-gate position-size check and adjustment -/

/-- Counterexample to C6 as stated: with total balance 1 USDT and price
50000, a 0.001-quantity proposal has notional 50 > 0.3, so the gate adjusts —
but the adjusted quantity floors to 0, and the orchestrator's retry guard
(`adjustedParams.quantity > 0`) then skips the trade instead of retrying. -/
theorem c6_counterexample_zero_adjusted_quantity_not_retried :
    ({ sampleSignal with quantity := 0.001 } : TradeSignal).quantity * 50000 >
      tinyBalance.totalBalance * 0.3 ∧
    (RiskManager.validateTrade sampleRiskConfig 0 tinyBalance 50000 [] 0
        (TradingStrategy.tradeParamsOfSignal
          { sampleSignal with quantity := 0.001 })).adjustedParams.map
      (fun adj => adj.quantity) = some 0 ∧
    TradingStrategy.executeTradingAction { sampleSignal with quantity := 0.001 }
      (RiskManager.validateTrade sampleRiskConfig 0 tinyBalance 50000 [] 0
        (TradingStrategy.tradeParamsOfSignal
          { sampleSignal with quantity := 0.001 })) = none := by
  refine ⟨by norm_num [sampleSignal, tinyBalance], ?_, ?_⟩ <;>
    norm_num [RiskManager.validateTrade, TradingStrategy.tradeParamsOfSignal,
      TradingStrategy.executeTradingAction, sampleSignal, tinyBalance,
      sampleRiskConfig, sampleAI]

/-- Claim C6 (amended): under an unexhausted daily budget and a positive
proposed quantity (positive price, nonnegative balance): a proposal whose
notional equals exactly `0.30 × total_balance` is not adjusted and passes the
position-size check, while a strictly greater notional is rejected
(`approved = false`) with an `adjustedParams` quantity floored to the nearest
0.001 that fits within `0.30 × total_balance`; the orchestrator retries with
the adjusted quantity provided it is positive (when it floors to zero the
trade is skipped instead). -/
theorem c6_risk_gate_size_check (config : RiskConfig) (dailyTrades : ℕ)
    (balance : Balance) (currentPrice : ℚ) (positions : List Position)
    (volatilityRisk : ℚ) (signal : TradeSignal)
    (hd : dailyTrades < config.maxDailyTrades)
    (hq : 0 < signal.quantity)
    (hp : 0 < currentPrice) :
    (signal.quantity * currentPrice = balance.totalBalance * 0.3 →
      (RiskManager.validateTrade config dailyTrades balance currentPrice
          positions volatilityRisk
          (TradingStrategy.tradeParamsOfSignal signal)).adjustedParams = none ∧
      (RiskManager.validateTrade config dailyTrades balance currentPrice
          positions volatilityRisk
          (TradingStrategy.tradeParamsOfSignal signal)).reason ≠
        .positionOverLimit) ∧
    (signal.quantity * currentPrice > balance.totalBalance * 0.3 →
      (RiskManager.validateTrade config dailyTrades balance currentPrice
          positions volatilityRisk
          (TradingStrategy.tradeParamsOfSignal signal)).approved = false ∧
      ∃ adj,
        (RiskManager.validateTrade config dailyTrades balance currentPrice
            positions volatilityRisk
            (TradingStrategy.tradeParamsOfSignal signal)).adjustedParams =
          some adj ∧
        adj.quantity =
          ((⌊balance.totalBalance * 0.3 / currentPrice * 1000⌋ : ℤ) : ℚ) / 1000 ∧
        adj.quantity * currentPrice ≤ balance.totalBalance * 0.3 ∧
        (0 < adj.quantity →
          TradingStrategy.executeTradingAction signal
              (RiskManager.validateTrade config dailyTrades balance currentPrice
                positions volatilityRisk
                (TradingStrategy.tradeParamsOfSignal signal)) =
            some { signal with
                   quantity := adj.quantity
                   leverage := adj.leverage.getD signal.leverage
                   stopLoss := adj.stopLoss
                   takeProfit := adj.takeProfit })) := by
  have hq' : ¬(TradingStrategy.tradeParamsOfSignal signal).quantity ≤ 0 :=
    not_le.2 hq
  have hd' : ¬dailyTrades ≥ config.maxDailyTrades := not_le.2 hd
  constructor
  · intro heq
    have hsz : ¬(TradingStrategy.tradeParamsOfSignal signal).quantity *
        currentPrice > balance.totalBalance * 0.3 := by
      simp only [TradingStrategy.tradeParamsOfSignal, heq]
      exact lt_irrefl _
    simp only [RiskManager.validateTrade, if_neg hd', if_neg hq', if_neg hsz]
    split_ifs <;> simp
  · intro hgt
    have hsz : (TradingStrategy.tradeParamsOfSignal signal).quantity *
        currentPrice > balance.totalBalance * 0.3 := hgt
    have hv : RiskManager.validateTrade config dailyTrades balance currentPrice
        positions volatilityRisk (TradingStrategy.tradeParamsOfSignal signal) =
        { approved := false
          reason := .positionOverLimit
          adjustedParams := some { TradingStrategy.tradeParamsOfSignal signal with
            quantity :=
              ((⌊balance.totalBalance * 0.3 / currentPrice * 1000⌋ : ℤ) : ℚ) / 1000 }
          riskScore := 0.8 } := by
      simp only [RiskManager.validateTrade, if_neg hd', if_neg hq', if_pos hsz]
    rw [hv]
    refine ⟨rfl, _, rfl, rfl, ?_, ?_⟩
    · have hfl : ((⌊balance.totalBalance * 0.3 / currentPrice * 1000⌋ : ℤ) : ℚ) ≤
          balance.totalBalance * 0.3 / currentPrice * 1000 := Int.floor_le _
      have h1000 : (0 : ℚ) < 1000 := by norm_num
      have step : ((⌊balance.totalBalance * 0.3 / currentPrice * 1000⌋ : ℤ) : ℚ) / 1000 *
          currentPrice ≤
          balance.totalBalance * 0.3 / currentPrice * 1000 / 1000 * currentPrice :=
        mul_le_mul_of_nonneg_right ((div_le_div_iff_of_pos_right h1000).2 hfl) hp.le
      calc ((⌊balance.totalBalance * 0.3 / currentPrice * 1000⌋ : ℤ) : ℚ) / 1000 *
            currentPrice ≤
            balance.totalBalance * 0.3 / currentPrice * 1000 / 1000 * currentPrice :=
          step
        _ = balance.totalBalance * 0.3 := by
          field_simp
          ring
    · intro hpos
      simp only [TradingStrategy.executeTradingAction]
      rw [if_neg (by simp), if_pos hpos]

/-- Witness for C6: scenario 6 of the specification — quantity 1 at price
50000 against a 10000 USDT balance is adjusted to 0.06 and retried. -/
theorem c6_risk_gate_size_check_witness :
    0 < sampleRiskConfig.maxDailyTrades ∧ 0 < sampleSignal.quantity ∧
    (0 : ℚ) < 50000 ∧
    ((sampleSignal.quantity * 50000 = sampleBalance.totalBalance * 0.3 →
      (RiskManager.validateTrade sampleRiskConfig 0 sampleBalance 50000 [] 0
          (TradingStrategy.tradeParamsOfSignal sampleSignal)).adjustedParams = none ∧
      (RiskManager.validateTrade sampleRiskConfig 0 sampleBalance 50000 [] 0
          (TradingStrategy.tradeParamsOfSignal sampleSignal)).reason ≠
        .positionOverLimit) ∧
    (sampleSignal.quantity * 50000 > sampleBalance.totalBalance * 0.3 →
      (RiskManager.validateTrade sampleRiskConfig 0 sampleBalance 50000 [] 0
          (TradingStrategy.tradeParamsOfSignal sampleSignal)).approved = false ∧
      ∃ adj,
        (RiskManager.validateTrade sampleRiskConfig 0 sampleBalance 50000 [] 0
            (TradingStrategy.tradeParamsOfSignal sampleSignal)).adjustedParams =
          some adj ∧
        adj.quantity =
          ((⌊sampleBalance.totalBalance * 0.3 / 50000 * 1000⌋ : ℤ) : ℚ) / 1000 ∧
        adj.quantity * 50000 ≤ sampleBalance.totalBalance * 0.3 ∧
        (0 < adj.quantity →
          TradingStrategy.executeTradingAction sampleSignal
              (RiskManager.validateTrade sampleRiskConfig 0 sampleBalance 50000 [] 0
                (TradingStrategy.tradeParamsOfSignal sampleSignal)) =
            some { sampleSignal with
                   quantity := adj.quantity
                   leverage := adj.leverage.getD sampleSignal.leverage
                   stopLoss := adj.stopLoss
                   takeProfit := adj.takeProfit }))) :=
  ⟨by decide, by decide, by norm_num,
   c6_risk_gate_size_check sampleRiskConfig 0 sampleBalance 50000 [] 0
     sampleSignal (by decide) (by decide) (by norm_num)⟩

/-! ## Claim C3 — candle-window refresh invariant -/

/-- Claim C3 evaluated at its failing input: refreshing the window
`[1, 2, 3]` with the re-fetched candles `[2, 3]` leaves the open-time
sequence `[1, 2, 3, 2, 3]` — non-adjacent duplicates survive the filter and
the window is no longer increasing; moreover a single re-emitted candle
(open time 3 with updated close 14) is dropped in favour of the already
buffered older record (close 12), not the newer one. -/
theorem c3_refresh_keeps_duplicates_and_old_records :
    (DataManager.updateLatestData [candle 1 10, candle 2 11, candle 3 12]
        [candle 2 13, candle 3 14]).map (fun k => k.openTime) = [1, 2, 3, 2, 3] ∧
    ¬((DataManager.updateLatestData [candle 1 10, candle 2 11, candle 3 12]
        [candle 2 13, candle 3 14]).map (fun k => k.openTime)).Nodup ∧
    ¬List.Chain' (· < ·)
      ((DataManager.updateLatestData [candle 1 10, candle 2 11, candle 3 12]
        [candle 2 13, candle 3 14]).map (fun k => k.openTime)) ∧
    DataManager.updateLatestData [candle 1 10, candle 2 11, candle 3 12]
        [candle 3 14] = [candle 1 10, candle 2 11, candle 3 12] := by
  refine ⟨by decide, by decide, ?_, by decide⟩
  intro hch
  have h1 : (DataManager.updateLatestData [candle 1 10, candle 2 11, candle 3 12]
      [candle 2 13, candle 3 14]).map (fun k => k.openTime) = [1, 2, 3, 2, 3] := by
    decide
  rw [h1] at hch
  simp [List.chain'_cons] at hch

/-! ## Claim C2 — profit-ladder rungs fire at most once -/

/-- Claim C2 evaluated at its failing input: with the 0.3 rung already
recorded and `pnl_pct = 0.7` held across two consecutive ticks (AI verdict
HOLD, no other strategy triggered), the 0.6 rung fires `CLOSE_50` on *both*
ticks and `profitLadderExecuted` stays `[30]`: `executeExitAction` records a
ladder level only in its `CLOSE_25` branch, so the 0.6 rung re-fires.  (For
contrast, the third conjunct shows the 0.3 rung firing `CLOSE_25` and being
recorded, after which it cannot re-fire.) -/
theorem c2_profit_ladder_60_refires :
    TradingStrategy.backupExitTick samplePosition (sampleBundle "HOLD")
        3600000 ladderTracking = (some 50, some ladderTracking) ∧
    TradingStrategy.backupExitTick samplePosition (sampleBundle "HOLD")
        7200000 ladderTracking = (some 50, some ladderTracking) ∧
    TradingStrategy.backupExitTick samplePosition (sampleBundle "HOLD")
        3600000 { ladderTracking with profitLadderExecuted := [] } =
      (some 25, some ladderTracking) := by
  refine ⟨?_, ?_, ?_⟩ <;>
    norm_num [TradingStrategy.backupExitTick,
      TradingStrategy.evaluateExitStrategies,
      TradingStrategy.executeExitAction,
      samplePosition, sampleBundle, sampleTechnical, sampleAI, sampleKalman,
      sampleMarketData, ladderTracking,
      (by decide : ("HOLD" : String) ≠ "SELL"),
      (by decide : ("HOLD" : String) ≠ "BUY"),
      (by decide : ("CLOSE_50" : String) ≠ "HOLD"),
      (by decide : ("CLOSE_50" : String) ≠ "CLOSE_FULL"),
      (by decide : ("CLOSE_50" : String) ≠ "CLOSE_100"),
      (by decide : ("CLOSE_25" : String) ≠ "HOLD"),
      (by decide : ("CLOSE_25" : String) ≠ "CLOSE_FULL"),
      (by decide : ("CLOSE_25" : String) ≠ "CLOSE_100"),
      (by decide : ("CLOSE_25" : String) ≠ "CLOSE_50"),
      (by decide : (([30] : List ℕ).contains 30) = true),
      (by decide : (([30] : List ℕ).contains 60) = false),
      (by decide : ((([] : List ℕ)).contains 30) = false),
      (by decide : jsIncludes "PROFIT_LADDER_30" "PROFIT_LADDER" = true),
      (by decide : trailingDigits "PROFIT_LADDER_30" = some 30)]

/-! ## Claim C5 — Kalman fallback on short candle lists -/

/-- Counterexample to C5 as stated: on the *empty* candle list the `catch`
block of `predict` evaluates `klines[klines.length − 1].close` on
`undefined`, so the call raises instead of returning the fallback
prediction. -/
theorem c5_counterexample_empty_list_raises :
    KalmanFilter.predict (fun q => q) [] 5 = none := rfl

/-- Claim C5 (amended): for every *nonempty* candle list of length less than
10, `predict` returns the fallback prediction — predicted price = close of
the last candle, confidence 0.1, neutral trend, accuracy 0.1 — rather than
raising; on the empty list the fallback itself raises. -/
theorem c5_fallback_for_short_nonempty_lists (sqrtQ : ℚ → ℚ)
    (klines : List Kline) (lookAhead : ℚ) (hne : klines ≠ [])
    (hlen : klines.length < 10) :
    ∃ k, klines.getLast? = some k ∧
      KalmanFilter.predict sqrtQ klines lookAhead =
        some { predictedPrice := k.close, confidence := some 0.1,
               trend := "neutral", timeframe := "5m", accuracy := 0.1 } := by
  cases h : klines.getLast? with
  | none => exact absurd (List.getLast?_eq_none_iff.mp h) hne
  | some k =>
      exact ⟨k, rfl, by
        simp only [KalmanFilter.predict, if_pos hlen, h,
          KalmanFilter.fallbackPrediction]⟩

/-- Witness for C5: a single flat candle at close 42 yields the fallback
prediction `(42, 0.1, neutral, 0.1)`. -/
theorem c5_fallback_for_short_nonempty_lists_witness :
    [candle 0 42] ≠ ([] : List Kline) ∧ [candle 0 42].length < 10 ∧
    ∃ k, [candle 0 42].getLast? = some k ∧
      KalmanFilter.predict (fun q => q) [candle 0 42] 5 =
        some { predictedPrice := k.close, confidence := some 0.1,
               trend := "neutral", timeframe := "5m", accuracy := 0.1 } :=
  ⟨by decide, by decide,
   c5_fallback_for_short_nonempty_lists (fun q => q) [candle 0 42] 5
     (by decide) (by decide)⟩

/-! ## Claim C7 — Kalman confidence/accuracy stay in [0, 1] -/

/-- Counterexample to C7 as stated: on a constant price series (the claim's
own "in particular" case, input max = input min) the filtered series equals
the input, so `√MSE/(max−min)` is `0/0 = NaN`, which survives the
`Math.max(0, Math.min(1, ·))` clamp: the returned confidence is `NaN`
(`none`), not a value in `[0,1]`. -/
theorem c7_counterexample_constant_series_nan_confidence :
    KalmanFilter.predict (fun q => q) flatWindow 5 =
      some { predictedPrice := 100, confidence := none, trend := "neutral",
             timeframe := "5m", accuracy := 1 } := by
  simp only [flatWindow]
  have hlen : ¬([candle 0 100, candle 1 100, candle 2 100, candle 3 100,
      candle 4 100, candle 5 100, candle 6 100, candle 7 100, candle 8 100,
      candle 9 100].length < 10) := by norm_num
  simp only [KalmanFilter.predict, if_neg hlen, KalmanFilter.runKalmanFilter]
  rw [show List.map (fun k => k.close)
      [candle 0 100, candle 1 100, candle 2 100, candle 3 100, candle 4 100,
       candle 5 100, candle 6 100, candle 7 100, candle 8 100, candle 9 100] =
      [(100 : ℚ), 100, 100, 100, 100, 100, 100, 100, 100, 100] from rfl]
  rw [show ([(100 : ℚ), 100, 100, 100, 100, 100, 100, 100, 100, 100]).headD 0 =
      100 from rfl]
  rw [runKalmanAux_const _ _ 100 _ 1 (by norm_num)]
  norm_num [KalmanFilter.calculateVolatility,
    KalmanFilter.simpleReturns, KalmanFilter.calculateVolumeTrend,
    KalmanFilter.adaptFilterParameters,
    KalmanFilter.extrapolateFuture, KalmanFilter.calculateLinearTrend,
    KalmanFilter.calculateConfidence, KalmanFilter.maxOf, KalmanFilter.minOf,
    KalmanFilter.determineTrend, KalmanFilter.calculateAccuracy,
    KalmanFilter.pairDirection, candle, List.zip, List.zipWith, List.range,
    List.range.loop]

/-- Claim C7 (amended): for every candle list of length at least 10 whose
maximum close differs from its minimum close, the prediction's confidence
and accuracy lie in `[0, 1]` (the confidence by the explicit clamp, the
accuracy as a matched-pairs fraction); when the maximum equals the minimum
(constant series) the confidence is instead `NaN`. -/
theorem c7_confidence_accuracy_in_unit_interval (sqrtQ : ℚ → ℚ)
    (klines : List Kline) (lookAhead : ℚ)
    (hlen : 10 ≤ klines.length)
    (hmm : KalmanFilter.maxOf (klines.map (fun k => k.close)) ≠
           KalmanFilter.minOf (klines.map (fun k => k.close))) :
    ∃ p, KalmanFilter.predict sqrtQ klines lookAhead = some p ∧
      (∃ c, p.confidence = some c ∧ 0 ≤ c ∧ c ≤ 1) ∧
      0 ≤ p.accuracy ∧ p.accuracy ≤ 1 := by
  have hlen' : ¬klines.length < 10 := not_lt.2 hlen
  simp only [KalmanFilter.predict, if_neg hlen']
  refine ⟨_, rfl, ?_, ?_, ?_⟩
  · have hplen : (KalmanFilter.runKalmanFilter
        (KalmanFilter.adaptFilterParameters
          (KalmanFilter.calculateVolatility sqrtQ (klines.map (fun k => k.close)))
          (KalmanFilter.calculateVolumeTrend (klines.map (fun k => k.volume)))).1
        (KalmanFilter.adaptFilterParameters
          (KalmanFilter.calculateVolatility sqrtQ (klines.map (fun k => k.close)))
          (KalmanFilter.calculateVolumeTrend (klines.map (fun k => k.volume)))).2
        (klines.map (fun k => k.close))).length =
        (klines.map (fun k => k.close)).length :=
      runKalmanAux_length _ _ _ _
    simp only [KalmanFilter.calculateConfidence, if_neg (not_ne_iff.mpr hplen),
      if_neg (sub_ne_zero_of_ne hmm)]
    exact ⟨_, rfl, (clamp_mem_Icc 0 1 _ (by norm_num)).1,
      (clamp_mem_Icc 0 1 _ (by norm_num)).2⟩
  all_goals {
    have hplen : (KalmanFilter.runKalmanFilter
        (KalmanFilter.adaptFilterParameters
          (KalmanFilter.calculateVolatility sqrtQ (klines.map (fun k => k.close)))
          (KalmanFilter.calculateVolumeTrend (klines.map (fun k => k.volume)))).1
        (KalmanFilter.adaptFilterParameters
          (KalmanFilter.calculateVolatility sqrtQ (klines.map (fun k => k.close)))
          (KalmanFilter.calculateVolumeTrend (klines.map (fun k => k.volume)))).2
        (klines.map (fun k => k.close))).length =
        (klines.map (fun k => k.close)).length :=
      runKalmanAux_length _ _ _ _
    rw [List.length_map] at hplen
    set preds := KalmanFilter.runKalmanFilter
        (KalmanFilter.adaptFilterParameters
          (KalmanFilter.calculateVolatility sqrtQ (klines.map (fun k => k.close)))
          (KalmanFilter.calculateVolumeTrend (klines.map (fun k => k.volume)))).1
        (KalmanFilter.adaptFilterParameters
          (KalmanFilter.calculateVolatility sqrtQ (klines.map (fun k => k.close)))
          (KalmanFilter.calculateVolumeTrend (klines.map (fun k => k.volume)))).2
        (klines.map (fun k => k.close)) with hpreds
    have h2 : ¬preds.length < 2 := by omega
    simp only [KalmanFilter.calculateAccuracy, if_neg h2]
    have htot : (0 : ℚ) < ((preds.length - 1 : ℕ) : ℚ) := by
      have : 1 ≤ preds.length - 1 := by omega
      exact_mod_cast Nat.lt_of_lt_of_le Nat.zero_lt_one this
    have hcorrect : ((((preds.zip (preds.drop 1)).map
          (fun p => KalmanFilter.pairDirection p.1 p.2)).zip
          (((klines.map (fun k => k.close)).zip
            ((klines.map (fun k => k.close)).drop 1)).map
          (fun p => KalmanFilter.pairDirection p.1 p.2))).filter
          (fun p => p.1 = p.2)).length ≤ preds.length - 1 := by
      calc ((((preds.zip (preds.drop 1)).map
            (fun p => KalmanFilter.pairDirection p.1 p.2)).zip
            (((klines.map (fun k => k.close)).zip
              ((klines.map (fun k => k.close)).drop 1)).map
            (fun p => KalmanFilter.pairDirection p.1 p.2))).filter
            (fun p => p.1 = p.2)).length ≤
          (((preds.zip (preds.drop 1)).map
            (fun p => KalmanFilter.pairDirection p.1 p.2)).zip
            (((klines.map (fun k => k.close)).zip
              ((klines.map (fun k => k.close)).drop 1)).map
            (fun p => KalmanFilter.pairDirection p.1 p.2))).length :=
          List.length_filter_le _ _
        _ ≤ ((preds.zip (preds.drop 1)).map
            (fun p => KalmanFilter.pairDirection p.1 p.2)).length := by
          rw [List.length_zip]; omega
        _ ≤ preds.length - 1 := by
          rw [List.length_map, List.length_zip, List.length_drop]; omega
    first
    | exact div_nonneg (Nat.cast_nonneg _) (Nat.cast_nonneg _)
    | exact (div_le_one htot).2 (by exact_mod_cast hcorrect)
  }

/-- Witness for C7: a ten-candle window with closes 100…100, 101 yields a
prediction whose confidence and accuracy are in `[0, 1]`. -/
theorem c7_confidence_accuracy_in_unit_interval_witness :
    10 ≤ sampleWindow.length ∧
    KalmanFilter.maxOf (sampleWindow.map (fun k => k.close)) ≠
      KalmanFilter.minOf (sampleWindow.map (fun k => k.close)) ∧
    ∃ p, KalmanFilter.predict (fun q => q) sampleWindow 5 = some p ∧
      (∃ c, p.confidence = some c ∧ 0 ≤ c ∧ c ≤ 1) ∧
      0 ≤ p.accuracy ∧ p.accuracy ≤ 1 :=
  ⟨by norm_num [sampleWindow],
   by norm_num [sampleWindow, candle, KalmanFilter.maxOf, KalmanFilter.minOf,
     max_def, min_def],
   c7_confidence_accuracy_in_unit_interval (fun q => q) sampleWindow 5
     (by norm_num [sampleWindow])
     (by norm_num [sampleWindow, candle, KalmanFilter.maxOf,
       KalmanFilter.minOf, max_def, min_def])⟩

/-! ## Claim C4 — trailing stop improves on the entry stop and is monotone -/

/-- One LONG management tick preserves the trailing invariant (once active,
the recorded maximum is at least `entry·1.005`), never lowers the recorded
maximum, and any submitted stop equals `max·(1 − 0.3 %)` and strictly
exceeds the entry-based stop `entry·(1 − 0.6 %)`. -/
theorem trailingTick_buy_step (entry : ℚ) (hentry : 0 < entry)
    (t : Tracking) (p : Position)
    (hp : TradingStrategy.consistentSnapshot "Buy" entry p)
    (hinv : t.trailingStopActive = true → entry * 1.005 ≤ t.maxPriceReached) :
    ((TradingStrategy.trailingTick t p).1.trailingStopActive = true →
       entry * 1.005 ≤ (TradingStrategy.trailingTick t p).1.maxPriceReached) ∧
    t.maxPriceReached ≤ (TradingStrategy.trailingTick t p).1.maxPriceReached ∧
    (∀ v, (TradingStrategy.trailingTick t p).2 = some v →
       v = (TradingStrategy.trailingTick t p).1.maxPriceReached * (1 - 0.3 / 100) ∧
       entry * (1 - 0.006) < v) := by
  obtain ⟨hpside, hpentry, hppnl⟩ := hp
  simp only [reduceIte] at hppnl
  have hemit : ∀ m, entry * 1.005 ≤ m →
      entry * (1 - 0.006) < m * (1 - 0.3 / 100) := by
    intro m hm
    nlinarith [hentry]
  by_cases hact : p.pnlPercentage ≥ 0.5 ∧ ¬(t.trailingStopActive = true)
  · have hcur : entry * 1.005 ≤ p.currentPrice := by
      have hge : (0.5 : ℚ) ≤ (p.currentPrice - entry) / entry * 100 := by
        rw [← hppnl]; exact hact.1
      rw [div_mul_eq_mul_div, le_div_iff₀ hentry] at hge
      linarith
    have hmax : entry * 1.005 ≤ max t.maxPriceReached p.currentPrice :=
      le_trans hcur (le_max_right _ _)
    by_cases hg : max t.maxPriceReached p.currentPrice * (1 - 0.3 / 100) >
        p.entryPrice * 0.98
    · have hres : TradingStrategy.trailingTick t p =
          ({ t with maxPriceReached := max t.maxPriceReached p.currentPrice, trailingStopActive := true }, some (max t.maxPriceReached p.currentPrice * (1 - 0.3 / 100))) := by
        simp [TradingStrategy.trailingTick, TradingStrategy.updateMaxMinPrices,
          TradingStrategy.updateTrailingStop, hpside, hact, hg]
      rw [hres]
      refine ⟨fun _ => hmax, le_max_left _ _, ?_⟩
      rintro v ⟨rfl⟩
      exact ⟨rfl, hemit _ hmax⟩
    · have hres : TradingStrategy.trailingTick t p =
          ({ t with maxPriceReached := max t.maxPriceReached p.currentPrice, trailingStopActive := true }, none) := by
        simp [TradingStrategy.trailingTick, TradingStrategy.updateMaxMinPrices,
          TradingStrategy.updateTrailingStop, hpside, hact, hg]
      rw [hres]
      exact ⟨fun _ => hmax, le_max_left _ _, fun v hv => by cases hv⟩
  · by_cases hison : t.trailingStopActive = true
    · have hmax : entry * 1.005 ≤ max t.maxPriceReached p.currentPrice :=
        le_trans (hinv hison) (le_max_left _ _)
      by_cases hg : max t.maxPriceReached p.currentPrice * (1 - 0.3 / 100) >
          p.entryPrice * 0.98
      · have hres : TradingStrategy.trailingTick t p =
            ({ t with maxPriceReached := max t.maxPriceReached p.currentPrice }, some (max t.maxPriceReached p.currentPrice * (1 - 0.3 / 100))) := by
          simp [TradingStrategy.trailingTick, TradingStrategy.updateMaxMinPrices,
            TradingStrategy.updateTrailingStop, hpside, hact, hison, hg]
        rw [hres]
        refine ⟨fun _ => hmax, le_max_left _ _, ?_⟩
        rintro v ⟨rfl⟩
        exact ⟨rfl, hemit _ hmax⟩
      · have hres : TradingStrategy.trailingTick t p =
            ({ t with maxPriceReached := max t.maxPriceReached p.currentPrice }, none) := by
          simp [TradingStrategy.trailingTick, TradingStrategy.updateMaxMinPrices,
            TradingStrategy.updateTrailingStop, hpside, hact, hison, hg]
        rw [hres]
        exact ⟨fun _ => hmax, le_max_left _ _, fun v hv => by cases hv⟩
    · have hnp : ¬(p.pnlPercentage ≥ 0.5) := fun hp5 => hact ⟨hp5, hison⟩
      have hres : TradingStrategy.trailingTick t p =
          ({ t with maxPriceReached := max t.maxPriceReached p.currentPrice }, none) := by
        simp [TradingStrategy.trailingTick, TradingStrategy.updateMaxMinPrices,
          TradingStrategy.updateTrailingStop, hpside, hnp, hison]
      rw [hres]
      refine ⟨?_, le_max_left _ _, fun v hv => by cases hv⟩
      intro hco
      exact absurd hco (by simpa using hison)

/-- Across a run of LONG management ticks from a tracking record satisfying
the invariant, every submitted stop strictly exceeds the entry-based stop
and is at least `max₀·(1 − 0.3 %)`, and the submitted sequence is
non-decreasing. -/
theorem trailingRun_buy (entry : ℚ) (hentry : 0 < entry) :
    ∀ (ps : List Position) (t : Tracking),
      (∀ p ∈ ps, TradingStrategy.consistentSnapshot "Buy" entry p) →
      (t.trailingStopActive = true → entry * 1.005 ≤ t.maxPriceReached) →
      (∀ sl ∈ TradingStrategy.trailingRun t ps,
         entry * (1 - 0.006) < sl ∧
         t.maxPriceReached * (1 - 0.3 / 100) ≤ sl) ∧
      (TradingStrategy.trailingRun t ps).Chain' (· ≤ ·)
  | [], t, _, _ => by simp [TradingStrategy.trailingRun]
  | p :: rest, t, hcons, hinv => by
      obtain ⟨hinv', hmono, hemit⟩ :=
        trailingTick_buy_step entry hentry t p
          (hcons p (List.mem_cons_self p rest)) hinv
      obtain ⟨ihmem, ihchain⟩ :=
        trailingRun_buy entry hentry rest (TradingStrategy.trailingTick t p).1
          (fun q hq => hcons q (List.mem_cons_of_mem p hq)) hinv'
      have hmono' : t.maxPriceReached * (1 - 0.3 / 100) ≤
          (TradingStrategy.trailingTick t p).1.maxPriceReached * (1 - 0.3 / 100) :=
        mul_le_mul_of_nonneg_right hmono (by norm_num)
      have hrun : TradingStrategy.trailingRun t (p :: rest) =
          (TradingStrategy.trailingTick t p).2.toList ++
            TradingStrategy.trailingRun (TradingStrategy.trailingTick t p).1 rest :=
        rfl
      rw [hrun]
      cases hopt : (TradingStrategy.trailingTick t p).2 with
      | none =>
          simp only [hopt, Option.toList_none, List.nil_append]
          exact ⟨fun sl hsl => ⟨(ihmem sl hsl).1,
            le_trans hmono' (ihmem sl hsl).2⟩, ihchain⟩
      | some v =>
          obtain ⟨hveq, hvlb⟩ := hemit v hopt
          simp only [hopt, Option.toList_some, List.singleton_append]
          refine ⟨?_, ?_⟩
          · intro sl hsl
            rcases List.mem_cons.mp hsl with rfl | hsl'
            · exact ⟨hvlb, by rw [hveq]; exact hmono'⟩
            · exact ⟨(ihmem sl hsl').1, le_trans hmono' (ihmem sl hsl').2⟩
          · refine List.chain'_cons'.mpr ⟨?_, ihchain⟩
            intro b hb
            have hbmem : b ∈ TradingStrategy.trailingRun
                (TradingStrategy.trailingTick t p).1 rest :=
              List.mem_of_mem_head? hb
            rw [hveq]
            exact (ihmem b hbmem).2

/-- One SHORT management tick: mirror of `trailingTick_buy_step` with the
recorded minimum, invariant `min ≤ entry·0.995`, submitted stop
`min·(1 + 0.3 %)` strictly below the entry-based stop `entry·(1 + 0.6 %)`. -/
theorem trailingTick_sell_step (entry : ℚ) (hentry : 0 < entry)
    (t : Tracking) (p : Position)
    (hp : TradingStrategy.consistentSnapshot "Sell" entry p)
    (hinv : t.trailingStopActive = true → t.minPriceReached ≤ entry * 0.995) :
    ((TradingStrategy.trailingTick t p).1.trailingStopActive = true →
       (TradingStrategy.trailingTick t p).1.minPriceReached ≤ entry * 0.995) ∧
    (TradingStrategy.trailingTick t p).1.minPriceReached ≤ t.minPriceReached ∧
    (∀ v, (TradingStrategy.trailingTick t p).2 = some v →
       v = (TradingStrategy.trailingTick t p).1.minPriceReached * (1 + 0.3 / 100) ∧
       v < entry * (1 + 0.006)) := by
  obtain ⟨hpside, hpentry, hppnl⟩ := hp
  have hss : ("Sell" : String) ≠ "Buy" := by decide
  simp only [if_neg hss] at hppnl
  have hemit : ∀ m, m ≤ entry * 0.995 →
      m * (1 + 0.3 / 100) < entry * (1 + 0.006) := by
    intro m hm
    nlinarith [hentry]
  by_cases hact : p.pnlPercentage ≥ 0.5 ∧ ¬(t.trailingStopActive = true)
  · have hcur : p.currentPrice ≤ entry * 0.995 := by
      have hge : (0.5 : ℚ) ≤ (entry - p.currentPrice) / entry * 100 := by
        rw [← hppnl]; exact hact.1
      rw [div_mul_eq_mul_div, le_div_iff₀ hentry] at hge
      linarith
    have hmin : min t.minPriceReached p.currentPrice ≤ entry * 0.995 :=
      le_trans (min_le_right _ _) hcur
    by_cases hg : min t.minPriceReached p.currentPrice * (1 + 0.3 / 100) <
        p.entryPrice * 1.02
    · have hres : TradingStrategy.trailingTick t p =
          ({ t with minPriceReached := min t.minPriceReached p.currentPrice, trailingStopActive := true }, some (min t.minPriceReached p.currentPrice * (1 + 0.3 / 100))) := by
        simp [TradingStrategy.trailingTick, TradingStrategy.updateMaxMinPrices,
          TradingStrategy.updateTrailingStop, hpside, hss, hact, hg]
      rw [hres]
      refine ⟨fun _ => hmin, min_le_left _ _, ?_⟩
      rintro v ⟨rfl⟩
      exact ⟨rfl, hemit _ hmin⟩
    · have hres : TradingStrategy.trailingTick t p =
          ({ t with minPriceReached := min t.minPriceReached p.currentPrice, trailingStopActive := true }, none) := by
        simp [TradingStrategy.trailingTick, TradingStrategy.updateMaxMinPrices,
          TradingStrategy.updateTrailingStop, hpside, hss, hact, hg]
      rw [hres]
      exact ⟨fun _ => hmin, min_le_left _ _, fun v hv => by cases hv⟩
  · by_cases hison : t.trailingStopActive = true
    · have hmin : min t.minPriceReached p.currentPrice ≤ entry * 0.995 :=
        le_trans (min_le_left _ _) (hinv hison)
      by_cases hg : min t.minPriceReached p.currentPrice * (1 + 0.3 / 100) <
          p.entryPrice * 1.02
      · have hres : TradingStrategy.trailingTick t p =
            ({ t with minPriceReached := min t.minPriceReached p.currentPrice }, some (min t.minPriceReached p.currentPrice * (1 + 0.3 / 100))) := by
          simp [TradingStrategy.trailingTick, TradingStrategy.updateMaxMinPrices,
            TradingStrategy.updateTrailingStop, hpside, hss, hact, hison, hg]
        rw [hres]
        refine ⟨fun _ => hmin, min_le_left _ _, ?_⟩
        rintro v ⟨rfl⟩
        exact ⟨rfl, hemit _ hmin⟩
      · have hres : TradingStrategy.trailingTick t p =
            ({ t with minPriceReached := min t.minPriceReached p.currentPrice }, none) := by
          simp [TradingStrategy.trailingTick, TradingStrategy.updateMaxMinPrices,
            TradingStrategy.updateTrailingStop, hpside, hss, hact, hison, hg]
        rw [hres]
        exact ⟨fun _ => hmin, min_le_left _ _, fun v hv => by cases hv⟩
    · have hnp : ¬(p.pnlPercentage ≥ 0.5) := fun hp5 => hact ⟨hp5, hison⟩
      have hres : TradingStrategy.trailingTick t p =
          ({ t with minPriceReached := min t.minPriceReached p.currentPrice }, none) := by
        simp [TradingStrategy.trailingTick, TradingStrategy.updateMaxMinPrices,
          TradingStrategy.updateTrailingStop, hpside, hss, hnp, hison]
      rw [hres]
      refine ⟨?_, min_le_left _ _, fun v hv => by cases hv⟩
      intro hco
      exact absurd hco (by simpa using hison)

/-- Across a run of SHORT management ticks: every submitted stop is strictly
below the entry-based stop and at most `min₀·(1 + 0.3 %)`, and the submitted
sequence is non-increasing. -/
theorem trailingRun_sell (entry : ℚ) (hentry : 0 < entry) :
    ∀ (ps : List Position) (t : Tracking),
      (∀ p ∈ ps, TradingStrategy.consistentSnapshot "Sell" entry p) →
      (t.trailingStopActive = true → t.minPriceReached ≤ entry * 0.995) →
      (∀ sl ∈ TradingStrategy.trailingRun t ps,
         sl < entry * (1 + 0.006) ∧
         sl ≤ t.minPriceReached * (1 + 0.3 / 100)) ∧
      (TradingStrategy.trailingRun t ps).Chain' (· ≥ ·)
  | [], t, _, _ => by simp [TradingStrategy.trailingRun]
  | p :: rest, t, hcons, hinv => by
      obtain ⟨hinv', hmono, hemit⟩ :=
        trailingTick_sell_step entry hentry t p
          (hcons p (List.mem_cons_self p rest)) hinv
      obtain ⟨ihmem, ihchain⟩ :=
        trailingRun_sell entry hentry rest (TradingStrategy.trailingTick t p).1
          (fun q hq => hcons q (List.mem_cons_of_mem p hq)) hinv'
      have hmono' : (TradingStrategy.trailingTick t p).1.minPriceReached *
          (1 + 0.3 / 100) ≤ t.minPriceReached * (1 + 0.3 / 100) :=
        mul_le_mul_of_nonneg_right hmono (by norm_num)
      have hrun : TradingStrategy.trailingRun t (p :: rest) =
          (TradingStrategy.trailingTick t p).2.toList ++
            TradingStrategy.trailingRun (TradingStrategy.trailingTick t p).1 rest :=
        rfl
      rw [hrun]
      cases hopt : (TradingStrategy.trailingTick t p).2 with
      | none =>
          simp only [hopt, Option.toList_none, List.nil_append]
          exact ⟨fun sl hsl => ⟨(ihmem sl hsl).1,
            le_trans (ihmem sl hsl).2 hmono'⟩, ihchain⟩
      | some v =>
          obtain ⟨hveq, hvub⟩ := hemit v hopt
          simp only [hopt, Option.toList_some, List.singleton_append]
          refine ⟨?_, ?_⟩
          · intro sl hsl
            rcases List.mem_cons.mp hsl with rfl | hsl'
            · exact ⟨hvub, by rw [hveq]; exact hmono'⟩
            · exact ⟨(ihmem sl hsl').1, le_trans (ihmem sl hsl').2 hmono'⟩
          · refine List.chain'_cons'.mpr ⟨?_, ihchain⟩
            intro b hb
            have hbmem : b ∈ TradingStrategy.trailingRun
                (TradingStrategy.trailingTick t p).1 rest :=
              List.mem_of_mem_head? hb
            rw [hveq]
            exact (ihmem b hbmem).2

/-- Claim C4: along any tick sequence of one position with venue-consistent
snapshots (fixed side, fixed positive entry price, trailing initially
inactive, `pnl_pct` the price-based venue formula), every stop price
submitted to `update_stop_loss` strictly improves on the original
entry-based stop-loss (`entry·(1 − 0.6 %)` for LONG, `entry·(1 + 0.6 %)`
for SHORT) in the favourable direction, and the submitted stop sequence is
monotonically non-decreasing for LONG and non-increasing for SHORT. -/
theorem c4_trailing_stop_improves_and_monotone (side : String) (entry : ℚ)
    (te : TechnicalIndicators) (t0 : Tracking) (ps : List Position)
    (hentry : 0 < entry)
    (hactive : t0.trailingStopActive = false)
    (hcons : ∀ p ∈ ps, TradingStrategy.consistentSnapshot side entry p) :
    (side = "Buy" →
      (∀ sl ∈ TradingStrategy.trailingRun t0 ps,
         TradingStrategy.calculateStopLoss entry "BUY" te < sl) ∧
      (TradingStrategy.trailingRun t0 ps).Chain' (· ≤ ·)) ∧
    (side = "Sell" →
      (∀ sl ∈ TradingStrategy.trailingRun t0 ps,
         sl < TradingStrategy.calculateStopLoss entry "SELL" te) ∧
      (TradingStrategy.trailingRun t0 ps).Chain' (· ≥ ·)) := by
  constructor
  · intro hbuy
    subst hbuy
    obtain ⟨hmem, hchain⟩ := trailingRun_buy entry hentry ps t0 hcons
      (fun h => by rw [hactive] at h; cases h)
    refine ⟨fun sl hsl => ?_, hchain⟩
    have h1 := (hmem sl hsl).1
    simpa [TradingStrategy.calculateStopLoss] using h1
  · intro hsell
    subst hsell
    obtain ⟨hmem, hchain⟩ := trailingRun_sell entry hentry ps t0 hcons
      (fun h => by rw [hactive] at h; cases h)
    refine ⟨fun sl hsl => ?_, hchain⟩
    have h1 := (hmem sl hsl).1
    simpa [TradingStrategy.calculateStopLoss,
      (by decide : ("SELL" : String) ≠ "BUY")] using h1

/-- Witness for C4: scenario 3 of the specification in miniature — a LONG at
50000 with a consistent snapshot at 50350 (pnl 0.7 %); every submitted stop
beats the entry stop 49700 and the sequence is non-decreasing. -/
theorem c4_trailing_stop_improves_and_monotone_witness :
    (0 : ℚ) < 50000 ∧
    ladderTracking.trailingStopActive = false ∧
    (∀ p ∈ [samplePosition],
       TradingStrategy.consistentSnapshot "Buy" 50000 p) ∧
    ((("Buy" : String) = "Buy" →
      (∀ sl ∈ TradingStrategy.trailingRun ladderTracking [samplePosition],
         TradingStrategy.calculateStopLoss 50000 "BUY" sampleTechnical < sl) ∧
      (TradingStrategy.trailingRun ladderTracking [samplePosition]).Chain' (· ≤ ·)) ∧
    (("Buy" : String) = "Sell" →
      (∀ sl ∈ TradingStrategy.trailingRun ladderTracking [samplePosition],
         sl < TradingStrategy.calculateStopLoss 50000 "SELL" sampleTechnical) ∧
      (TradingStrategy.trailingRun ladderTracking [samplePosition]).Chain' (· ≥ ·))) := by
  refine ⟨by norm_num, rfl, ?_, ?_⟩
  · intro p hp
    rw [List.mem_singleton] at hp
    subst hp
    refine ⟨rfl, rfl, ?_⟩
    norm_num [samplePosition]
  · exact c4_trailing_stop_improves_and_monotone "Buy" 50000 sampleTechnical
      ladderTracking [samplePosition] (by norm_num) rfl
      (by
        intro p hp
        rw [List.mem_singleton] at hp
        subst hp
        refine ⟨rfl, rfl, ?_⟩
        norm_num [samplePosition])


end Kalmann
